import Mathlib

/-!
Shallow embedding of the touchgrass.city realtime game server
(`src/routes/ws/game.ts`, the version using `resolveBlockedMovement`)
in Lean 4, with theorems checking the natural-language specification.

Modelling conventions:
* JS `number` is modelled by `ℚ`.  All arithmetic in the embedded paths is
  exact rational arithmetic; the only irrational operations in the source
  (`Math.sqrt`, `Math.cos`, `Math.sin`, `Math.SQRT1_2`, the `Math.sin`-based
  `seededUnit`, and `Math.random`) are abstracted as oracle parameters,
  constrained exactly by the property the JS value satisfies where a theorem
  needs it (e.g. `Math.random() ∈ [0,1)`, `seededUnit s ∈ [0,1)`).
* JS `Map` objects (`players`, `userScores`, `userColors`) are modelled by
  insertion-ordered association lists with `mapGet` / `mapSet`.
* Functions that draw randomness thread an index `k` into a stream
  `rnd : ℕ → ℚ`; each `randomBetween` call consumes one stream element,
  mirroring one `Math.random()` call.
* `crypto.randomUUID()` is abstracted as a stream `uuid : ℕ → String`
  read at the current randomness index (ids are never inspected).
-/

/-- Constants from `src/lib/game-protocol.ts`. -/
def MAP_WIDTH : ℚ := 10000

def MAP_HEIGHT : ℚ := 10000

def PLAYER_RADIUS : ℚ := 16

def GRASS_RADIUS : ℚ := 14

def PLAYER_SPEED : ℚ := 10

/-- Constants from the top of `src/routes/ws/game.ts`. -/
def GRASS_COUNT : ℕ := 220

def GRASS_PLAYER_PADDING : ℚ := 8

def GRASS_SPACING : ℚ := 6

def POWERUP_COUNT : ℕ := 18

def POWERUP_RADIUS : ℚ := 16

def POWERUP_PLAYER_PADDING : ℚ := 20

def POWERUP_GRASS_PADDING : ℚ := 10

def POWERUP_SPACING : ℚ := 28

def SPEED_MULTIPLIER : ℚ := 17 / 10

def MAGNET_EXTRA_RADIUS : ℚ := 108

def MAGNET_PULL_PER_TICK : ℚ := 8

def ENEMY_COUNT : ℕ := 20

def ENEMY_RADIUS : ℚ := 20

def ENEMY_SPEED_PER_TICK : ℚ := 7

def ENEMY_RETURN_SPEED_MULTIPLIER : ℚ := 12 / 10

def SPEED_DURATION_MS : ℚ := 8000

def MAGNET_DURATION_MS : ℚ := 9000

def DOUBLE_DURATION_MS : ℚ := 10000

def OVERGROWTH_THRESHOLD : ℕ := 4

def OVERGROWTH_BONUS : ℕ := 3

def CITY_COLS : ℕ := 8

def CITY_ROWS : ℕ := 8

def STREET_WIDTH : ℚ := 170

def BUILDING_MARGIN : ℚ := 46

/-- `RectSnapshot` of the protocol: an axis-aligned rectangle with an id. -/
structure Rect where
  id : String
  x : ℚ
  y : ℚ
  width : ℚ
  height : ℚ
deriving DecidableEq

/-- `clamp(value, min, max) = Math.min(max, Math.max(min, value))`. -/
def clamp (value lo hi : ℚ) : ℚ :=
  min hi (max lo value)

/-- `circleIntersectsRect`: distance from the circle center to the closest
point of the rectangle is at most the radius (the source compares squared
distances with `<=`). -/
def circleIntersectsRect (x y radius : ℚ) (rect : Rect) : Bool :=
  let closestX := clamp x rect.x (rect.x + rect.width)
  let closestY := clamp y rect.y (rect.y + rect.height)
  let dx := x - closestX
  let dy := y - closestY
  decide (dx * dx + dy * dy ≤ radius * radius)

/-- `isCircleBlockedByBuildings`, parameterized by the building list the JS
closes over. -/
def isCircleBlockedByBuildings (buildings : List Rect) (x y radius : ℚ) : Bool :=
  buildings.any fun building => circleIntersectsRect x y radius building

/-- Result record of `resolveBlockedMovement` (`{x, y, movedSquared}`). -/
structure MoveResolved where
  x : ℚ
  y : ℚ
  movedSquared : ℚ

/-- The inner `tryOrder` closure of `resolveBlockedMovement`: advance along
one axis, then the other, each only when the destination circle hits no
building. `xyFirst = true` is the `'xy'` order. -/
def tryOrder (buildings : List Rect) (currentX currentY boundedTargetX boundedTargetY radius : ℚ)
    (xyFirst : Bool) : MoveResolved :=
  if xyFirst then
    let nextX :=
      if isCircleBlockedByBuildings buildings boundedTargetX currentY radius then currentX
      else boundedTargetX
    let nextY :=
      if isCircleBlockedByBuildings buildings nextX boundedTargetY radius then currentY
      else boundedTargetY
    ⟨nextX, nextY, (nextX - currentX) * (nextX - currentX) + (nextY - currentY) * (nextY - currentY)⟩
  else
    let nextY :=
      if isCircleBlockedByBuildings buildings currentX boundedTargetY radius then currentY
      else boundedTargetY
    let nextX :=
      if isCircleBlockedByBuildings buildings boundedTargetX nextY radius then currentX
      else boundedTargetX
    ⟨nextX, nextY, (nextX - currentX) * (nextX - currentX) + (nextY - currentY) * (nextY - currentY)⟩

/-- `resolveBlockedMovement`: clamp the target into
`[radius, bound - radius]` on each axis, try the two axis orders, and keep
the order that moved farther (ties go to the `'xy'` order). -/
def resolveBlockedMovement (buildings : List Rect)
    (currentX currentY targetX targetY radius : ℚ) : MoveResolved :=
  let boundedTargetX := clamp targetX radius (MAP_WIDTH - radius)
  let boundedTargetY := clamp targetY radius (MAP_HEIGHT - radius)
  let xy := tryOrder buildings currentX currentY boundedTargetX boundedTargetY radius true
  let yx := tryOrder buildings currentX currentY boundedTargetX boundedTargetY radius false
  if xy.movedSquared ≥ yx.movedSquared then xy else yx

/-- `blockWidth` computed in `createCityLayout`. -/
def cityBlockWidth : ℚ :=
  (MAP_WIDTH - STREET_WIDTH * ((CITY_COLS : ℚ) + 1)) / (CITY_COLS : ℚ)

/-- `blockHeight` computed in `createCityLayout`. -/
def cityBlockHeight : ℚ :=
  (MAP_HEIGHT - STREET_WIDTH * ((CITY_ROWS : ℚ) + 1)) / (CITY_ROWS : ℚ)

/-- The street and building lists of `createCityLayout`. -/
structure CityLayout where
  streets : List Rect
  buildings : List Rect

/-- The block origin `blockX` for a column, as computed in
`createCityLayout`. -/
def blockX (col : ℕ) : ℚ :=
  STREET_WIDTH + (col : ℚ) * (cityBlockWidth + STREET_WIDTH)

/-- The block origin `blockY` for a row. -/
def blockY (row : ℕ) : ℚ :=
  STREET_WIDTH + (row : ℚ) * (cityBlockHeight + STREET_WIDTH)

/-- `usableWidth = Math.max(80, blockWidth - BUILDING_MARGIN * 2)`. -/
def usableWidth : ℚ :=
  max 80 (cityBlockWidth - BUILDING_MARGIN * 2)

/-- `usableHeight = Math.max(80, blockHeight - BUILDING_MARGIN * 2)`. -/
def usableHeight : ℚ :=
  max 80 (cityBlockHeight - BUILDING_MARGIN * 2)

/-- `seedBase = row * 101 + col * 37 + 1`. -/
def seedBase (row col : ℕ) : ℤ :=
  (row : ℤ) * 101 + (col : ℤ) * 37 + 1

/-- The main tower of one block.  `su` abstracts `seededUnit` (the
fractional part of a scaled `Math.sin`, always in `[0,1)`). -/
def blockMainRect (su : ℤ → ℚ) (row col : ℕ) : Rect :=
  let widthFactor := 52 / 100 + su (seedBase row col) * (3 / 10)
  let heightFactor := 1 / 2 + su (seedBase row col + 1) * (34 / 100)
  let mainWidth := usableWidth * widthFactor
  let mainHeight := usableHeight * heightFactor
  let offsetX := (usableWidth - mainWidth) * su (seedBase row col + 2)
  let offsetY := (usableHeight - mainHeight) * su (seedBase row col + 3)
  { id := "tower-main-" ++ toString row ++ "-" ++ toString col
    x := blockX col + BUILDING_MARGIN + offsetX
    y := blockY row + BUILDING_MARGIN + offsetY
    width := mainWidth
    height := mainHeight }

/-- The optional annex tower of one block, placed in one of four corners. -/
def blockAnnexRect (su : ℤ → ℚ) (row col : ℕ) : Rect :=
  let corner : ℤ := ⌊su (seedBase row col + 5) * 4⌋
  let annexWidth := max 60 (usableWidth * (2 / 10 + su (seedBase row col + 6) * (22 / 100)))
  let annexHeight := max 60 (usableHeight * (2 / 10 + su (seedBase row col + 7) * (22 / 100)))
  { id := "tower-annex-" ++ toString row ++ "-" ++ toString col
    x := blockX col + BUILDING_MARGIN +
      (if corner = 1 ∨ corner = 3 then usableWidth - annexWidth else 0)
    y := blockY row + BUILDING_MARGIN +
      (if corner = 2 ∨ corner = 3 then usableHeight - annexHeight else 0)
    width := annexWidth
    height := annexHeight }

/-- The buildings `createCityLayout` pushes for one block: the main tower,
plus the annex when the seeded draw exceeds `0.35`. -/
def blockBuildings (su : ℤ → ℚ) (row col : ℕ) : List Rect :=
  if su (seedBase row col + 4) > 35 / 100 then
    [blockMainRect su row col, blockAnnexRect su row col]
  else
    [blockMainRect su row col]

/-- `createCityLayout`, parameterized by the `seededUnit` oracle `su`. -/
def createCityLayout (su : ℤ → ℚ) : CityLayout :=
  let vStreets := (List.range (CITY_COLS + 1)).map fun (col : ℕ) =>
    ({ id := "street-v-" ++ toString col
       x := (col : ℚ) * (cityBlockWidth + STREET_WIDTH)
       y := 0
       width := STREET_WIDTH
       height := MAP_HEIGHT } : Rect)
  let hStreets := (List.range (CITY_ROWS + 1)).map fun (row : ℕ) =>
    ({ id := "street-h-" ++ toString row
       x := 0
       y := (row : ℚ) * (cityBlockHeight + STREET_WIDTH)
       width := MAP_WIDTH
       height := STREET_WIDTH } : Rect)
  let buildings := (List.range CITY_ROWS).flatMap fun row =>
    (List.range CITY_COLS).flatMap fun col => blockBuildings su row col
  { streets := vStreets ++ hStreets, buildings := buildings }

/-- Characters removed by JS `String.prototype.trim` (the WhiteSpace and
LineTerminator characters relevant here). -/
def isJsWhitespace (c : Char) : Bool :=
  c = ' ' || c = '\t' || c = '\n' || c = '\r' || c = '\x0b' || c = '\x0c' ||
  c = ' ' || c = '﻿' || c = ' ' || c = ' ' || c = '　'

/-- `value.trim()` on the character list. -/
def jsTrim (cs : List Char) : List Char :=
  ((cs.dropWhile isJsWhitespace).reverse.dropWhile isJsWhitespace).reverse

/-- `value.toLowerCase()` on the character list (ASCII case mapping, which
covers every character the color regexes can accept). -/
def jsToLower (cs : List Char) : List Char :=
  cs.map Char.toLower

/-- `[0-9a-f]` on an already lowercased character. -/
def isLowerHexDigit (c : Char) : Bool :=
  c.isDigit || ('a' ≤ c && c ≤ 'f')

/-- `sanitizeColor` for a string argument: trim, lowercase, match
`/^#?([0-9a-f]{3})$/` (expanding each digit) or `/^#?([0-9a-f]{6})$/`. -/
def sanitizeColor (value : String) : Option String :=
  let trimmed := jsToLower (jsTrim value.data)
  let body := if trimmed.head? = some '#' then trimmed.tail else trimmed
  if body.length = 3 && body.all isLowerHexDigit then
    some (String.mk ('#' :: body.flatMap fun c => [c, c]))
  else if body.length = 6 && body.all isLowerHexDigit then
    some (String.mk ('#' :: body))
  else none

/-- A JSON field value as seen by `sanitizeColor` (`typeof value !== 'string'`
yields `null`). -/
inductive JsValue where
  | str (s : String)
  | nonString

/-- `sanitizeColor` on an `unknown` value. -/
def sanitizeColorValue : JsValue → Option String
  | JsValue.str s => sanitizeColor s
  | JsValue.nonString => none

/-- The three powerup types. -/
inductive PowerupType where
  | speed
  | magnet
  | double
deriving DecidableEq

/-- `POWERUP_TYPES`. -/
def POWERUP_TYPES : List PowerupType :=
  [PowerupType.speed, PowerupType.magnet, PowerupType.double]

/-- One live connection's player record (`ServerPlayer`, minus the raw
socket handle, which is identified by `connectionId`). -/
structure ServerPlayer where
  connectionId : String
  userId : String
  name : String
  color : String
  x : ℚ
  y : ℚ
  score : ℚ
  speedUntil : ℚ
  magnetUntil : ℚ
  doubleUntil : ℚ
deriving DecidableEq

/-- A grass slot (`GrassSpot`). -/
structure Grass where
  x : ℚ
  y : ℚ
deriving DecidableEq

/-- A powerup slot (`PowerupSpot`). -/
structure Powerup where
  id : String
  type : PowerupType
  x : ℚ
  y : ℚ
deriving DecidableEq

/-- An enemy agent (`EnemySpot`). -/
structure EnemySpot where
  id : String
  x : ℚ
  y : ℚ
  homeX : ℚ
  homeY : ℚ
  territoryRadius : ℚ
deriving DecidableEq

/-- The process-wide mutable registries of the module: the `players` map
(in insertion order), the per-user `userScores` and `userColors` maps, the
`pendingJoinTimers` key set, and the item/enemy pools. -/
structure GameState where
  players : List ServerPlayer
  userScores : List (String × ℚ)
  userColors : List (String × String)
  pendingJoins : List String
  grasses : List Grass
  powerups : List Powerup
  enemies : List EnemySpot
deriving DecidableEq

/-- `Map.prototype.get`. -/
def mapGet {β : Type} (m : List (String × β)) (key : String) : Option β :=
  match m with
  | [] => none
  | (k, v) :: rest => if k = key then some v else mapGet rest key

/-- `Map.prototype.set`: overwrite in place, else append (JS `Map` preserves
insertion order). -/
def mapSet {β : Type} (m : List (String × β)) (key : String) (value : β) :
    List (String × β) :=
  match m with
  | [] => [(key, value)]
  | (k, v) :: rest =>
    if k = key then (k, value) :: rest else (k, v) :: mapSet rest key value

/-- Squared distance between two points, as written inline throughout the
source (`dx * dx + dy * dy` for `dx = ax - bx`, `dy = ay - by`). -/
def distSq (ax ay bx bY : ℚ) : ℚ :=
  (ax - bx) * (ax - bx) + (ay - bY) * (ay - bY)

/-- `extendPowerup`: the new expiry is `max(currentUntil, now) + durationMs`
(the source writes the max as a conditional). -/
def extendPowerup (currentUntil now durationMs : ℚ) : ℚ :=
  (if currentUntil > now then currentUntil else now) + durationMs

/-- `applyPowerup`: extend the matching buff timer. -/
def applyPowerup (player : ServerPlayer) (type : PowerupType) (now : ℚ) : ServerPlayer :=
  match type with
  | PowerupType.speed =>
    { player with speedUntil := extendPowerup player.speedUntil now SPEED_DURATION_MS }
  | PowerupType.magnet =>
    { player with magnetUntil := extendPowerup player.magnetUntil now MAGNET_DURATION_MS }
  | PowerupType.double =>
    { player with doubleUntil := extendPowerup player.doubleUntil now DOUBLE_DURATION_MS }

/-- `getActivePowerups`: the buff names whose expiry is strictly in the
future. -/
def getActivePowerups (player : ServerPlayer) (now : ℚ) : List PowerupType :=
  (if player.speedUntil > now then [PowerupType.speed] else []) ++
  (if player.magnetUntil > now then [PowerupType.magnet] else []) ++
  (if player.doubleUntil > now then [PowerupType.double] else [])

/-- `getPlayerMoveSpeed`. -/
def getPlayerMoveSpeed (player : ServerPlayer) (now : ℚ) : ℚ :=
  if player.speedUntil > now then PLAYER_SPEED * SPEED_MULTIPLIER else PLAYER_SPEED

/-- `getGrassTouchRadius`. -/
def getGrassTouchRadius : ℚ :=
  PLAYER_RADIUS + GRASS_RADIUS

/-- `getGrassMagnetRadius`. -/
def getGrassMagnetRadius (player : ServerPlayer) (now : ℚ) : ℚ :=
  if player.magnetUntil > now then getGrassTouchRadius + MAGNET_EXTRA_RADIUS
  else getGrassTouchRadius

/-- `randomBetween(min, max) = Math.floor(Math.random() * (max - min + 1)) + min`,
threading the index into the `Math.random()` oracle stream. -/
def randomBetween (rnd : ℕ → ℚ) (k : ℕ) (lo hi : ℚ) : ℚ × ℕ :=
  ((⌊rnd k * (hi - lo + 1)⌋ : ℚ) + lo, k + 1)

/-- JS array indexing with an integer-valued number. -/
def toIdx (q : ℚ) : ℕ :=
  ⌊q⌋.toNat

/-- `randomPowerupType`. -/
def randomPowerupType (rnd : ℕ → ℚ) (k : ℕ) : PowerupType × ℕ :=
  let pick := randomBetween rnd k 0 ((POWERUP_TYPES.length : ℚ) - 1)
  (POWERUP_TYPES.getD (toIdx pick.1) PowerupType.speed, pick.2)

/-- `Math.round` (half goes toward positive infinity, as in JS). -/
def jsRound (q : ℚ) : ℚ :=
  (⌊q + 1 / 2⌋ : ℚ)

/-- The acceptance test of `spawnGrass`'s primary loop: the candidate must
clear players, other grass slots (minus `skipIndex`), powerups, enemies and
buildings. -/
def grassCandidateOk (buildings : List Rect) (playersL : List ServerPlayer)
    (powerupsL : List Powerup) (enemiesL : List EnemySpot) (existing : List Grass)
    (skipIndex : Option ℕ) (nx ny : ℚ) : Bool :=
  let hasPlayerCollision := playersL.any fun player =>
    let minDistance := PLAYER_RADIUS + GRASS_RADIUS + GRASS_PLAYER_PADDING
    decide (distSq player.x player.y nx ny ≤ minDistance * minDistance)
  let hasGrassCollision := existing.enum.any fun grassSpot =>
    if skipIndex = some grassSpot.1 then false
    else
      let minDistance := GRASS_RADIUS * 2 + GRASS_SPACING
      decide (distSq grassSpot.2.x grassSpot.2.y nx ny ≤ minDistance * minDistance)
  let hasPowerupCollision := powerupsL.any fun powerup =>
    let minDistance := GRASS_RADIUS + POWERUP_RADIUS + POWERUP_GRASS_PADDING
    decide (distSq powerup.x powerup.y nx ny ≤ minDistance * minDistance)
  let hasEnemyCollision := enemiesL.any fun enemy =>
    let minDistance := GRASS_RADIUS + ENEMY_RADIUS + GRASS_PLAYER_PADDING
    decide (distSq enemy.x enemy.y nx ny ≤ minDistance * minDistance)
  let hasBuildingCollision := isCircleBlockedByBuildings buildings nx ny GRASS_RADIUS
  !(hasPlayerCollision || hasGrassCollision || hasPowerupCollision ||
    hasEnemyCollision || hasBuildingCollision)

/-- The relaxed second pass of `spawnGrass` (avoid buildings only), then the
absolute last resort `{x: minX, y: minY}`. -/
def spawnGrassRelaxed (buildings : List Rect) (rnd : ℕ → ℚ) :
    ℕ → ℕ → Grass × ℕ
  | 0, k => ({ x := GRASS_RADIUS, y := GRASS_RADIUS }, k)
  | fuel + 1, k =>
    let px := randomBetween rnd k GRASS_RADIUS (MAP_WIDTH - GRASS_RADIUS)
    let py := randomBetween rnd px.2 GRASS_RADIUS (MAP_HEIGHT - GRASS_RADIUS)
    if !isCircleBlockedByBuildings buildings px.1 py.1 GRASS_RADIUS then
      ({ x := px.1, y := py.1 }, py.2)
    else
      spawnGrassRelaxed buildings rnd fuel py.2

/-- The primary retry loop of `spawnGrass` (32 attempts). -/
def spawnGrassTry (buildings : List Rect) (playersL : List ServerPlayer)
    (powerupsL : List Powerup) (enemiesL : List EnemySpot) (existing : List Grass)
    (skipIndex : Option ℕ) (rnd : ℕ → ℚ) : ℕ → ℕ → Grass × ℕ
  | 0, k => spawnGrassRelaxed buildings rnd 32 k
  | fuel + 1, k =>
    let px := randomBetween rnd k GRASS_RADIUS (MAP_WIDTH - GRASS_RADIUS)
    let py := randomBetween rnd px.2 GRASS_RADIUS (MAP_HEIGHT - GRASS_RADIUS)
    if grassCandidateOk buildings playersL powerupsL enemiesL existing skipIndex px.1 py.1 then
      ({ x := px.1, y := py.1 }, py.2)
    else
      spawnGrassTry buildings playersL powerupsL enemiesL existing skipIndex rnd fuel py.2

/-- `spawnGrass`. -/
def spawnGrass (buildings : List Rect) (playersL : List ServerPlayer)
    (powerupsL : List Powerup) (enemiesL : List EnemySpot) (existing : List Grass)
    (skipIndex : Option ℕ) (rnd : ℕ → ℚ) (k : ℕ) : Grass × ℕ :=
  spawnGrassTry buildings playersL powerupsL enemiesL existing skipIndex rnd 32 k

/-- The acceptance test of `spawnPowerup`'s primary loop. -/
def powerupCandidateOk (buildings : List Rect) (playersL : List ServerPlayer)
    (grassesL : List Grass) (enemiesL : List EnemySpot) (existing : List Powerup)
    (skipIndex : Option ℕ) (nx ny : ℚ) : Bool :=
  let hasPlayerCollision := playersL.any fun player =>
    let minDistance := PLAYER_RADIUS + POWERUP_RADIUS + POWERUP_PLAYER_PADDING
    decide (distSq player.x player.y nx ny ≤ minDistance * minDistance)
  let hasGrassCollision := grassesL.any fun grassSpot =>
    let minDistance := GRASS_RADIUS + POWERUP_RADIUS + POWERUP_GRASS_PADDING
    decide (distSq grassSpot.x grassSpot.y nx ny ≤ minDistance * minDistance)
  let hasPowerupCollision := existing.enum.any fun powerup =>
    if skipIndex = some powerup.1 then false
    else
      let minDistance := POWERUP_RADIUS * 2 + POWERUP_SPACING
      decide (distSq powerup.2.x powerup.2.y nx ny ≤ minDistance * minDistance)
  let hasEnemyCollision := enemiesL.any fun enemy =>
    let minDistance := POWERUP_RADIUS + ENEMY_RADIUS + POWERUP_PLAYER_PADDING
    decide (distSq enemy.x enemy.y nx ny ≤ minDistance * minDistance)
  let hasBuildingCollision := isCircleBlockedByBuildings buildings nx ny POWERUP_RADIUS
  !(hasPlayerCollision || hasGrassCollision || hasPowerupCollision ||
    hasEnemyCollision || hasBuildingCollision)

/-- The relaxed second pass of `spawnPowerup`, then the last resort at
`(minX, minY)`. -/
def spawnPowerupRelaxed (buildings : List Rect) (rnd : ℕ → ℚ) (uuid : ℕ → String) :
    ℕ → ℕ → Powerup × ℕ
  | 0, k =>
    let pick := randomPowerupType rnd k
    ({ id := uuid pick.2, type := pick.1, x := POWERUP_RADIUS, y := POWERUP_RADIUS }, pick.2)
  | fuel + 1, k =>
    let px := randomBetween rnd k POWERUP_RADIUS (MAP_WIDTH - POWERUP_RADIUS)
    let py := randomBetween rnd px.2 POWERUP_RADIUS (MAP_HEIGHT - POWERUP_RADIUS)
    if !isCircleBlockedByBuildings buildings px.1 py.1 POWERUP_RADIUS then
      let pick := randomPowerupType rnd py.2
      ({ id := uuid pick.2, type := pick.1, x := px.1, y := py.1 }, pick.2)
    else
      spawnPowerupRelaxed buildings rnd uuid fuel py.2

/-- The primary retry loop of `spawnPowerup` (32 attempts). -/
def spawnPowerupTry (buildings : List Rect) (playersL : List ServerPlayer)
    (grassesL : List Grass) (enemiesL : List EnemySpot) (existing : List Powerup)
    (skipIndex : Option ℕ) (rnd : ℕ → ℚ) (uuid : ℕ → String) : ℕ → ℕ → Powerup × ℕ
  | 0, k => spawnPowerupRelaxed buildings rnd uuid 32 k
  | fuel + 1, k =>
    let px := randomBetween rnd k POWERUP_RADIUS (MAP_WIDTH - POWERUP_RADIUS)
    let py := randomBetween rnd px.2 POWERUP_RADIUS (MAP_HEIGHT - POWERUP_RADIUS)
    if powerupCandidateOk buildings playersL grassesL enemiesL existing skipIndex px.1 py.1 then
      let pick := randomPowerupType rnd py.2
      ({ id := uuid pick.2, type := pick.1, x := px.1, y := py.1 }, pick.2)
    else
      spawnPowerupTry buildings playersL grassesL enemiesL existing skipIndex rnd uuid fuel py.2

/-- `spawnPowerup`. -/
def spawnPowerup (buildings : List Rect) (playersL : List ServerPlayer)
    (grassesL : List Grass) (enemiesL : List EnemySpot) (existing : List Powerup)
    (skipIndex : Option ℕ) (rnd : ℕ → ℚ) (uuid : ℕ → String) (k : ℕ) : Powerup × ℕ :=
  spawnPowerupTry buildings playersL grassesL enemiesL existing skipIndex rnd uuid 32 k

/-- `Math.ceil(Math.sqrt(n))` for natural `n`. -/
def ceilSqrt (n : ℕ) : ℕ :=
  if Nat.sqrt n * Nat.sqrt n = n then Nat.sqrt n else Nat.sqrt n + 1

/-- The result record of `getEnemyHome`. -/
structure EnemyHome where
  homeX : ℚ
  homeY : ℚ
  territoryRadius : ℚ

/-- One step of the closest-street-point search in `getEnemyHome`: clamp
the home point into the street (inset by the enemy radius), skip points
pushed off the map, and keep the closest candidate (strict `<`). -/
def closestStreetPointStep (homeX homeY : ℚ) (acc : (ℚ × ℚ) × Option ℚ) (street : Rect) :
    (ℚ × ℚ) × Option ℚ :=
  let pointX := clamp homeX (street.x + ENEMY_RADIUS) (street.x + street.width - ENEMY_RADIUS)
  let pointY := clamp homeY (street.y + ENEMY_RADIUS) (street.y + street.height - ENEMY_RADIUS)
  if pointX < ENEMY_RADIUS ∨ pointY < ENEMY_RADIUS then acc
  else
    let d2 := distSq homeX homeY pointX pointY
    match acc.2 with
    | none => ((pointX, pointY), some d2)
    | some bd => if d2 < bd then ((pointX, pointY), some d2) else acc

/-- `getEnemyHome`: tile the map into a `cols × rows` grid of territory
cells, jitter the cell center, clamp to bounds; if the point is blocked by a
building (even after the `resolveBlockedMovement` snap), fall back to the
closest in-bounds point on any street.  `rows = Math.ceil(ENEMY_COUNT / cols)`
is written with natural ceiling division. -/
def getEnemyHome (layout : CityLayout) (rnd : ℕ → ℚ) (index : ℕ) (k : ℕ) :
    EnemyHome × ℕ :=
  let cols := ceilSqrt ENEMY_COUNT
  let rows := (ENEMY_COUNT + cols - 1) / cols
  let col := index % cols
  let row := index / cols
  let cellWidth := MAP_WIDTH / (cols : ℚ)
  let cellHeight := MAP_HEIGHT / (rows : ℚ)
  let jitterXRange : ℚ := max 20 (⌊cellWidth * (2 / 10)⌋ : ℚ)
  let jitterYRange : ℚ := max 20 (⌊cellHeight * (2 / 10)⌋ : ℚ)
  let jx := randomBetween rnd k (-jitterXRange) jitterXRange
  let jy := randomBetween rnd jx.2 (-jitterYRange) jitterYRange
  let homeX :=
    clamp (jsRound (((col : ℚ) + 1 / 2) * cellWidth + jx.1)) ENEMY_RADIUS
      (MAP_WIDTH - ENEMY_RADIUS)
  let homeY :=
    clamp (jsRound (((row : ℚ) + 1 / 2) * cellHeight + jy.1)) ENEMY_RADIUS
      (MAP_HEIGHT - ENEMY_RADIUS)
  let territoryRadius : ℚ := max 900 (⌊min cellWidth cellHeight * (8 / 10)⌋ : ℚ)
  let snapped := resolveBlockedMovement layout.buildings homeX homeY homeX homeY ENEMY_RADIUS
  if !isCircleBlockedByBuildings layout.buildings snapped.x snapped.y ENEMY_RADIUS then
    ({ homeX := snapped.x, homeY := snapped.y, territoryRadius := territoryRadius }, jy.2)
  else
    let best := layout.streets.foldl (closestStreetPointStep homeX homeY)
      ((homeX, homeY), (none : Option ℚ))
    ({ homeX := best.1.1, homeY := best.1.2, territoryRadius := territoryRadius }, jy.2)

/-- The enemy-vs-enemy spacing test shared by both `spawnEnemy` loops
(`minDistance = ENEMY_RADIUS * 2 + 28`). -/
def enemySpacingHit (existing : List EnemySpot) (x y : ℚ) : Bool :=
  existing.any fun enemy =>
    let minDistance := ENEMY_RADIUS * 2 + 28
    decide (distSq enemy.x enemy.y x y ≤ minDistance * minDistance)

/-- The streets-only fallback loop of `spawnEnemy` (32 attempts), then the
last resort at the home point itself. -/
def spawnEnemyStreets (layout : CityLayout) (existing : List EnemySpot)
    (home : EnemyHome) (rnd : ℕ → ℚ) (uuid : ℕ → String) : ℕ → ℕ → EnemySpot × ℕ
  | 0, k =>
    ({ id := uuid k, x := home.homeX, y := home.homeY, homeX := home.homeX,
       homeY := home.homeY, territoryRadius := home.territoryRadius }, k)
  | fuel + 1, k =>
    let pick := randomBetween rnd k 0 ((layout.streets.length : ℚ) - 1)
    let street := layout.streets.getD (toIdx pick.1) ⟨"", 0, 0, 0, 0⟩
    let px := randomBetween rnd pick.2 (⌈street.x + ENEMY_RADIUS⌉ : ℚ)
      (⌊street.x + street.width - ENEMY_RADIUS⌋ : ℚ)
    let py := randomBetween rnd px.2 (⌈street.y + ENEMY_RADIUS⌉ : ℚ)
      (⌊street.y + street.height - ENEMY_RADIUS⌋ : ℚ)
    if !enemySpacingHit existing px.1 py.1 &&
        !isCircleBlockedByBuildings layout.buildings px.1 py.1 ENEMY_RADIUS then
      ({ id := uuid py.2, x := px.1, y := py.1, homeX := home.homeX,
         homeY := home.homeY, territoryRadius := home.territoryRadius }, py.2)
    else
      spawnEnemyStreets layout existing home rnd uuid fuel py.2

/-- The primary loop of `spawnEnemy` (16 attempts around the home point).
`j` is the iteration counter of the source loop; `cosO j` and `sinO j`
abstract `Math.cos`/`Math.sin` of `(2π j) / 16`. -/
def spawnEnemyNearHome (layout : CityLayout) (existing : List EnemySpot)
    (home : EnemyHome) (rnd : ℕ → ℚ) (cosO sinO : ℕ → ℚ) (uuid : ℕ → String) :
    ℕ → ℕ → ℕ → EnemySpot × ℕ
  | _, 0, k => spawnEnemyStreets layout existing home rnd uuid 32 k
  | j, fuel + 1, k =>
    let sd : ℚ × ℕ :=
      if j = 0 then ((0 : ℚ), k)
      else randomBetween rnd k 0 (⌊home.territoryRadius * (4 / 10)⌋ : ℚ)
    let x := clamp (jsRound (home.homeX + cosO j * sd.1)) ENEMY_RADIUS (MAP_WIDTH - ENEMY_RADIUS)
    let y := clamp (jsRound (home.homeY + sinO j * sd.1)) ENEMY_RADIUS (MAP_HEIGHT - ENEMY_RADIUS)
    if !enemySpacingHit existing x y &&
        !isCircleBlockedByBuildings layout.buildings x y ENEMY_RADIUS then
      ({ id := uuid sd.2, x := x, y := y, homeX := home.homeX,
         homeY := home.homeY, territoryRadius := home.territoryRadius }, sd.2)
    else
      spawnEnemyNearHome layout existing home rnd cosO sinO uuid (j + 1) fuel sd.2

/-- `spawnEnemy`. -/
def spawnEnemy (layout : CityLayout) (existing : List EnemySpot) (enemyIndex : ℕ)
    (rnd : ℕ → ℚ) (cosO sinO : ℕ → ℚ) (uuid : ℕ → String) (k : ℕ) : EnemySpot × ℕ :=
  let home := getEnemyHome layout rnd enemyIndex k
  spawnEnemyNearHome layout existing home.1 rnd cosO sinO uuid 0 16 home.2

/-- The streets-only fallback loop of `spawnPlayerPosition` (64 attempts;
degenerate street sampling windows are skipped), then the last resort at
`(PLAYER_RADIUS, PLAYER_RADIUS)`. -/
def spawnPlayerStreets (layout : CityLayout) (rnd : ℕ → ℚ) : ℕ → ℕ → (ℚ × ℚ) × ℕ
  | 0, k => ((PLAYER_RADIUS, PLAYER_RADIUS), k)
  | fuel + 1, k =>
    let pick := randomBetween rnd k 0 ((layout.streets.length : ℚ) - 1)
    let street := layout.streets.getD (toIdx pick.1) ⟨"", 0, 0, 0, 0⟩
    let minStreetX := (⌈street.x + PLAYER_RADIUS⌉ : ℚ)
    let maxStreetX := (⌊street.x + street.width - PLAYER_RADIUS⌋ : ℚ)
    let minStreetY := (⌈street.y + PLAYER_RADIUS⌉ : ℚ)
    let maxStreetY := (⌊street.y + street.height - PLAYER_RADIUS⌋ : ℚ)
    if minStreetX > maxStreetX ∨ minStreetY > maxStreetY then
      spawnPlayerStreets layout rnd fuel pick.2
    else
      let px := randomBetween rnd pick.2 minStreetX maxStreetX
      let py := randomBetween rnd px.2 minStreetY maxStreetY
      if !isCircleBlockedByBuildings layout.buildings px.1 py.1 PLAYER_RADIUS then
        ((px.1, py.1), py.2)
      else
        spawnPlayerStreets layout rnd fuel py.2

/-- The primary loop of `spawnPlayerPosition` (32 attempts avoiding enemies
and buildings). -/
def spawnPlayerPositionTry (layout : CityLayout) (enemiesL : List EnemySpot)
    (rnd : ℕ → ℚ) : ℕ → ℕ → (ℚ × ℚ) × ℕ
  | 0, k => spawnPlayerStreets layout rnd 64 k
  | fuel + 1, k =>
    let px := randomBetween rnd k PLAYER_RADIUS (MAP_WIDTH - PLAYER_RADIUS)
    let py := randomBetween rnd px.2 PLAYER_RADIUS (MAP_HEIGHT - PLAYER_RADIUS)
    let hasEnemyCollision := enemiesL.any fun enemy =>
      let minDistance := PLAYER_RADIUS + ENEMY_RADIUS + 60
      decide (distSq enemy.x enemy.y px.1 py.1 ≤ minDistance * minDistance)
    if !hasEnemyCollision &&
        !isCircleBlockedByBuildings layout.buildings px.1 py.1 PLAYER_RADIUS then
      ((px.1, py.1), py.2)
    else
      spawnPlayerPositionTry layout enemiesL rnd fuel py.2

/-- `spawnPlayerPosition`. -/
def spawnPlayerPosition (layout : CityLayout) (enemiesL : List EnemySpot)
    (rnd : ℕ → ℚ) (k : ℕ) : (ℚ × ℚ) × ℕ :=
  spawnPlayerPositionTry layout enemiesL rnd 32 k

/-- `applyScoreToConnectedPlayers`. -/
def applyScoreToConnectedPlayers (playersL : List ServerPlayer) (userId : String)
    (score : ℚ) : List ServerPlayer :=
  playersL.map fun connectedPlayer =>
    if connectedPlayer.userId = userId then { connectedPlayer with score := score }
    else connectedPlayer

/-- `applyColorToConnectedPlayers`. -/
def applyColorToConnectedPlayers (playersL : List ServerPlayer) (userId : String)
    (color : String) : List ServerPlayer :=
  playersL.map fun connectedPlayer =>
    if connectedPlayer.userId = userId then { connectedPlayer with color := color }
    else connectedPlayer

/-- `resetUserScore`: zero the user-score map entry, zero every live
connection of the user, and issue one absolute persistence write of `0`
(returned as a trace entry). -/
def resetUserScore (userScores : List (String × ℚ)) (playersL : List ServerPlayer)
    (userId : String) : (List (String × ℚ)) × List ServerPlayer × (String × ℚ) :=
  (mapSet userScores userId 0, applyScoreToConnectedPlayers playersL userId 0, (userId, 0))

/-- Result record of `movePointToward`. -/
structure MoveStepResult where
  x : ℚ
  y : ℚ
  moved : Bool
  distanceSquared : ℚ

/-- `movePointToward`: step at most `maxStep` toward the target, resolving
against buildings with the enemy radius.  `sqrtO` abstracts `Math.sqrt`. -/
def movePointToward (buildings : List Rect) (sqrtO : ℚ → ℚ)
    (currentX currentY targetX targetY maxStep : ℚ) : MoveStepResult :=
  let dx := targetX - currentX
  let dy := targetY - currentY
  let distanceSquared := dx * dx + dy * dy
  if distanceSquared ≤ 1 / 10000 then
    { x := currentX, y := currentY, moved := false, distanceSquared := 0 }
  else
    let distance := sqrtO distanceSquared
    let step := min maxStep distance
    let next := resolveBlockedMovement buildings currentX currentY
      (currentX + dx / distance * step) (currentY + dy / distance * step) ENEMY_RADIUS
    { x := next.x, y := next.y, moved := decide (next.movedSquared > 1 / 10000),
      distanceSquared := distanceSquared }

/-- The closest-player search of `updateEnemies` (strict `<`, so the first
player in map order wins ties; `none` only when no player is connected). -/
def closerPlayer (enemy : EnemySpot) (acc : Option (ServerPlayer × ℚ))
    (player : ServerPlayer) : Option (ServerPlayer × ℚ) :=
  let d2 := distSq player.x player.y enemy.x enemy.y
  match acc with
  | none => some (player, d2)
  | some best => if d2 < best.2 then some (player, d2) else acc

def findClosestPlayer (enemy : EnemySpot) (allPlayers : List ServerPlayer) :
    Option ServerPlayer :=
  (allPlayers.foldl (closerPlayer enemy) none).map Prod.fst

/-- The target/speed selection of `updateEnemies`:
`shouldReturnHome = homeDistance² > (territoryRadius × 1.35)² || !closestPlayer`,
home at `ENEMY_SPEED_PER_TICK × ENEMY_RETURN_SPEED_MULTIPLIER`, otherwise the
closest player at `ENEMY_SPEED_PER_TICK`. -/
def enemyTargetAndSpeed (enemy : EnemySpot) (allPlayers : List ServerPlayer) :
    (ℚ × ℚ) × ℚ :=
  let homeDistanceSquared := distSq enemy.homeX enemy.homeY enemy.x enemy.y
  let leash := enemy.territoryRadius * (135 / 100)
  let leashSquared := leash * leash
  match findClosestPlayer enemy allPlayers with
  | none =>
    ((enemy.homeX, enemy.homeY), ENEMY_SPEED_PER_TICK * ENEMY_RETURN_SPEED_MULTIPLIER)
  | some closestPlayer =>
    if homeDistanceSquared > leashSquared then
      ((enemy.homeX, enemy.homeY), ENEMY_SPEED_PER_TICK * ENEMY_RETURN_SPEED_MULTIPLIER)
    else
      ((closestPlayer.x, closestPlayer.y), ENEMY_SPEED_PER_TICK)

/-- The accumulating state of one `updateEnemies` pass, with ghost traces
(`hits`, `respawned`) recording which users entered `hitUserIds` and which
connections were respawned. -/
structure EnemyTickLoop where
  players : List ServerPlayer
  enemies : List EnemySpot
  k : ℕ
  hits : List String
  respawned : List String
  changed : Bool

/-- The per-enemy player-collision loop of `updateEnemies`: every player
(read at its current, possibly already-respawned position) within
`PLAYER_RADIUS + ENEMY_RADIUS` of the enemy is recorded in `hitUserIds`
(insert-if-absent) and respawned via `spawnPlayerPosition`. -/
def enemyHitLoop (layout : CityLayout) (rnd : ℕ → ℚ) (ex ey : ℚ) :
    ℕ → ℕ → EnemyTickLoop → EnemyTickLoop
  | _, 0, ls => ls
  | j, fuel + 1, ls =>
    match ls.players[j]? with
    | none => ls
    | some player =>
      let hitD := PLAYER_RADIUS + ENEMY_RADIUS
      if distSq player.x player.y ex ey ≤ hitD * hitD then
        let hits := if player.userId ∈ ls.hits then ls.hits else ls.hits ++ [player.userId]
        let next := spawnPlayerPosition layout ls.enemies rnd ls.k
        enemyHitLoop layout rnd ex ey (j + 1) fuel
          { ls with
            players := ls.players.set j { player with x := next.1.1, y := next.1.2 }
            k := next.2
            hits := hits
            respawned := ls.respawned ++ [player.connectionId]
            changed := true }
      else
        enemyHitLoop layout rnd ex ey (j + 1) fuel ls

/-- The per-enemy loop of `updateEnemies`: select target and speed, take one
`movePointToward` step, then run the player-collision loop at the enemy's
new position. -/
def enemyTickLoop (layout : CityLayout) (rnd : ℕ → ℚ) (sqrtO : ℚ → ℚ) :
    ℕ → ℕ → EnemyTickLoop → EnemyTickLoop
  | _, 0, ls => ls
  | i, fuel + 1, ls =>
    match ls.enemies[i]? with
    | none => ls
    | some enemy =>
      let ts := enemyTargetAndSpeed enemy ls.players
      let moved := movePointToward layout.buildings sqrtO enemy.x enemy.y ts.1.1 ts.1.2 ts.2
      let enemy2 := if moved.moved then { enemy with x := moved.x, y := moved.y } else enemy
      let ls2 := { ls with
        enemies := ls.enemies.set i enemy2
        changed := ls.changed || moved.moved }
      let ls3 := enemyHitLoop layout rnd enemy2.x enemy2.y 0 ls2.players.length ls2
      enemyTickLoop layout rnd sqrtO (i + 1) fuel ls3

/-- The result of one `updateEnemies` invocation, with ghost traces:
`hits` is the content of `hitUserIds` in insertion order, `respawned` the
respawned connection ids, `persists` the absolute score writes issued by
`resetUserScore`. -/
structure TickResult where
  state : GameState
  changed : Bool
  hits : List String
  respawned : List String
  persists : List (String × ℚ)

/-- One reset of the post-loop `for (const userId of hitUserIds)` pass:
apply `resetUserScore` and append its persistence write to the trace. -/
def resetFoldStep (acc : (List (String × ℚ)) × List ServerPlayer × List (String × ℚ))
    (userId : String) : (List (String × ℚ)) × List ServerPlayer × List (String × ℚ) :=
  let r := resetUserScore acc.1 acc.2.1 userId
  (r.1, r.2.1, acc.2.2 ++ [r.2.2])

/-- `updateEnemies`: early-return when no player or no enemy is connected,
else run the per-enemy loop and then reset (once each) every user recorded
in `hitUserIds`. -/
def updateEnemies (layout : CityLayout) (rnd : ℕ → ℚ) (sqrtO : ℚ → ℚ)
    (st : GameState) (k : ℕ) : TickResult × ℕ :=
  if st.players.length = 0 ∨ st.enemies.length = 0 then
    ({ state := st, changed := false, hits := [], respawned := [], persists := [] }, k)
  else
    let ls := enemyTickLoop layout rnd sqrtO 0 st.enemies.length
      { players := st.players, enemies := st.enemies, k := k, hits := [],
        respawned := [], changed := false }
    let reset := ls.hits.foldl resetFoldStep
      (st.userScores, ls.players, ([] : List (String × ℚ)))
    ({ state := { st with players := reset.2.1, userScores := reset.1, enemies := ls.enemies }
       changed := ls.changed || decide (0 < ls.hits.length)
       hits := ls.hits
       respawned := ls.respawned
       persists := reset.2.2 }, ls.k)

/-- `PlayerSnapshot` of the protocol. -/
structure PlayerSnapshot where
  connectionId : String
  userId : String
  name : String
  color : String
  x : ℚ
  y : ℚ
  score : ℚ
  activePowerups : List PowerupType

/-- `EnemySnapshot` of the protocol (id and position only). -/
structure EnemySnapshot where
  id : String
  x : ℚ
  y : ℚ

/-- `WorldState` of the protocol. -/
structure WorldState where
  mapWidth : ℚ
  mapHeight : ℚ
  streets : List Rect
  buildings : List Rect
  grasses : List Grass
  powerups : List Powerup
  enemies : List EnemySnapshot
  players : List PlayerSnapshot

/-- `getWorldState`: the full snapshot sent on every broadcast. -/
def getWorldState (layout : CityLayout) (now : ℚ) (st : GameState) : WorldState :=
  { mapWidth := MAP_WIDTH
    mapHeight := MAP_HEIGHT
    streets := layout.streets
    buildings := layout.buildings
    grasses := st.grasses
    powerups := st.powerups
    enemies := st.enemies.map fun enemy => { id := enemy.id, x := enemy.x, y := enemy.y }
    players := st.players.map fun player =>
      { connectionId := player.connectionId
        userId := player.userId
        name := player.name
        color := player.color
        x := player.x
        y := player.y
        score := player.score
        activePowerups := getActivePowerups player now } }

/-- `ServerToClientMessage`. -/
inductive ServerMessage where
  | connected (connectionId : String)
  | worldState (world : WorldState)
  | errorMsg (message : String)

/-- The recipients of `broadcastWorld`: it loops over `players.values()` and
sends to each player's peer, so exactly the registered connections. -/
def broadcastRecipients (st : GameState) : List String :=
  st.players.map fun player => player.connectionId

/-- `players.get(peer.id)`. -/
def findPlayer (st : GameState) (peerId : String) : Option ServerPlayer :=
  st.players.find? fun player => player.connectionId = peerId

/-- A JS number value after `Number(...)` coercion: a rational, `NaN`
(any non-numeric input), or an infinity. -/
inductive JsNum where
  | num (q : ℚ)
  | nan
  | posInf
  | negInf
deriving DecidableEq

/-- `value || 0`: `NaN` (and `0` itself) is falsy and becomes `0`. -/
def orZero : JsNum → JsNum
  | JsNum.nan => JsNum.num 0
  | JsNum.num q => if q = 0 then JsNum.num 0 else JsNum.num q
  | JsNum.posInf => JsNum.posInf
  | JsNum.negInf => JsNum.negInf

/-- `clamp(Number(v) || 0, -1, 1)` on the extended number line:
`Math.max(-1, +∞) = +∞`, `Math.min(1, +∞) = 1`, and symmetrically. -/
def moveComponent (v : JsNum) : ℚ :=
  match orZero v with
  | JsNum.num q => clamp q (-1) 1
  | JsNum.posInf => 1
  | JsNum.negInf => -1
  | JsNum.nan => 0

/-- `ClientToServerMessage` as seen by the `message` hook: a failed
`message.json()` parse, a `set-color` intent, a `move` intent (components
already `Number`-coerced), or any other `type` tag. -/
inductive ClientMessage where
  | parseFailure
  | setColor (color : JsValue)
  | move (dx dy : JsNum)
  | otherType

/-- Result of one `message` hook invocation: the new state, the replies sent
to the sender, how many `broadcastWorld()` calls ran, and the close code
(always `none`: the message hook never closes the connection). -/
structure MessageResult where
  state : GameState
  replies : List ServerMessage
  broadcasts : ℕ
  closeCode : Option ℕ

/-- The two scoring steps at the end of the move handler: double the points
while the double buff is active, then add the flat overgrowth bonus when the
touched count reaches the threshold (the bonus itself is not doubled). -/
def pointsAwardedFor (touchedGrassCount : ℕ) (doubleActive : Bool) : ℕ :=
  let pointsAwarded := touchedGrassCount
  let pointsAwarded :=
    if 0 < pointsAwarded ∧ doubleActive = true then pointsAwarded * 2 else pointsAwarded
  if OVERGROWTH_THRESHOLD ≤ touchedGrassCount then pointsAwarded + OVERGROWTH_BONUS
  else pointsAwarded

/-- The score application at the end of the move handler: when points were
awarded, the user's next score is `(userScores.get(userId) ?? player.score)
+ pointsAwarded`, written to the map and to every live connection of the
user; the third component is the `persistScoreDelta` trace. -/
def applyGrassScore (userScores : List (String × ℚ)) (playersL : List ServerPlayer)
    (userId : String) (fallbackScore : ℚ) (pointsAwarded : ℕ) :
    (List (String × ℚ)) × List ServerPlayer × List (String × ℕ) :=
  if 0 < pointsAwarded then
    let nextScore := (mapGet userScores userId).getD fallbackScore + (pointsAwarded : ℚ)
    (mapSet userScores userId nextScore,
      applyScoreToConnectedPlayers playersL userId nextScore,
      [(userId, pointsAwarded)])
  else
    (userScores, playersL, [])

/-- Accumulating state of the pickup loops inside the move handler.
`player` is the sender's live record (the JS object mutated in place);
`players` is the map contents, kept in sync at index `pIdx`. -/
structure MoveLoopState where
  player : ServerPlayer
  players : List ServerPlayer
  grasses : List Grass
  powerups : List Powerup
  touched : ℕ
  k : ℕ

/-- The powerup pickup loop of the move handler: each powerup within
`PLAYER_RADIUS + POWERUP_RADIUS` applies its buff and is respawned in place
(its own slot excluded from the spacing test). -/
def powerupLoop (layout : CityLayout) (enemiesL : List EnemySpot) (rnd : ℕ → ℚ)
    (uuid : ℕ → String) (now : ℚ) (pIdx : ℕ) : ℕ → ℕ → MoveLoopState → MoveLoopState
  | _, 0, ms => ms
  | i, fuel + 1, ms =>
    match ms.powerups[i]? with
    | none => ms
    | some powerup =>
      let touchD := PLAYER_RADIUS + POWERUP_RADIUS
      if distSq ms.player.x ms.player.y powerup.x powerup.y ≤ touchD * touchD then
        let player2 := applyPowerup ms.player powerup.type now
        let players2 := ms.players.set pIdx player2
        let res := spawnPowerup layout.buildings players2 ms.grasses enemiesL
          ms.powerups (some i) rnd uuid ms.k
        powerupLoop layout enemiesL rnd uuid now pIdx (i + 1) fuel
          { ms with
            player := player2
            players := players2
            powerups := ms.powerups.set i res.1
            k := res.2 }
      else
        powerupLoop layout enemiesL rnd uuid now pIdx (i + 1) fuel ms

/-- The grass pickup loop of the move handler: collect on touch, otherwise
(with the magnet buff active and the item in magnet range) pull the item up
to `MAGNET_PULL_PER_TICK` toward the player — never past the touch radius
and never into a building — then re-check the touch radius. -/
def grassLoop (layout : CityLayout)
    (enemiesL : List EnemySpot) (rnd : ℕ → ℚ) (sqrtO : ℚ → ℚ)
    (isMagnetActive : Bool) (touchingDistance magnetDistanceSquared : ℚ) :
    ℕ → ℕ → MoveLoopState → MoveLoopState
  | _, 0, ms => ms
  | i, fuel + 1, ms =>
    match ms.grasses[i]? with
    | none => ms
    | some grass =>
      let touchingDistanceSquared := touchingDistance * touchingDistance
      let distanceX := ms.player.x - grass.x
      let distanceY := ms.player.y - grass.y
      let distanceSquared := distanceX * distanceX + distanceY * distanceY
      if distanceSquared ≤ touchingDistanceSquared then
        let res := spawnGrass layout.buildings ms.players ms.powerups enemiesL
          ms.grasses (some i) rnd ms.k
        grassLoop layout enemiesL rnd sqrtO isMagnetActive touchingDistance
          magnetDistanceSquared (i + 1) fuel
          { ms with grasses := ms.grasses.set i res.1, touched := ms.touched + 1, k := res.2 }
      else
        let pulled :=
          if isMagnetActive = true ∧ distanceSquared ≤ magnetDistanceSquared then
            let distance := sqrtO distanceSquared
            if distance > 1 / 1000 then
              let pullAmount := min MAGNET_PULL_PER_TICK (max 0 (distance - touchingDistance))
              if pullAmount > 0 then
                let pulledX := clamp (grass.x + distanceX / distance * pullAmount)
                  GRASS_RADIUS (MAP_WIDTH - GRASS_RADIUS)
                let pulledY := clamp (grass.y + distanceY / distance * pullAmount)
                  GRASS_RADIUS (MAP_HEIGHT - GRASS_RADIUS)
                if !isCircleBlockedByBuildings layout.buildings pulledX pulledY GRASS_RADIUS then
                  ({ x := pulledX, y := pulledY } : Grass)
                else grass
              else grass
            else grass
          else grass
        let newDistanceSquared := distSq ms.player.x ms.player.y pulled.x pulled.y
        let grasses2 := ms.grasses.set i pulled
        let next :=
          if newDistanceSquared ≤ touchingDistanceSquared then
            let res := spawnGrass layout.buildings ms.players ms.powerups enemiesL
              grasses2 (some i) rnd ms.k
            { ms with grasses := grasses2.set i res.1, touched := ms.touched + 1, k := res.2 }
          else
            { ms with grasses := grasses2 }
        grassLoop layout enemiesL rnd sqrtO isMagnetActive touchingDistance
          magnetDistanceSquared (i + 1) fuel next



/-- The movement-resolution step of the move handler: scale the clamped
direction by the move speed (and `Math.SQRT1_2`, abstracted as `sqrtHalf`,
when moving diagonally), then resolve against buildings. -/
def movedServerPlayer (layout : CityLayout) (sqrtHalf now : ℚ) (player : ServerPlayer)
    (dx dy : ℚ) : ServerPlayer :=
  let diagonalScale := if dx ≠ 0 ∧ dy ≠ 0 then sqrtHalf else 1
  let moveSpeed := getPlayerMoveSpeed player now
  let movedPlayer := resolveBlockedMovement layout.buildings player.x player.y
    (player.x + dx * moveSpeed * diagonalScale)
    (player.y + dy * moveSpeed * diagonalScale) PLAYER_RADIUS
  { player with x := movedPlayer.x, y := movedPlayer.y }

/-- The pickup-loop state as the move handler enters the powerup loop. -/
def moveMs0 (layout : CityLayout) (sqrtHalf now : ℚ) (pIdx : ℕ) (player : ServerPlayer)
    (dx dy : ℚ) (st : GameState) (k : ℕ) : MoveLoopState :=
  let player1 := movedServerPlayer layout sqrtHalf now player dx dy
  { player := player1, players := st.players.set pIdx player1,
    grasses := st.grasses, powerups := st.powerups, touched := 0, k := k }

/-- The state after the powerup pickup loop. -/
def moveMs1 (layout : CityLayout) (rnd : ℕ → ℚ) (sqrtHalf : ℚ) (uuid : ℕ → String)
    (now : ℚ) (pIdx : ℕ) (player : ServerPlayer) (dx dy : ℚ) (st : GameState) (k : ℕ) :
    MoveLoopState :=
  powerupLoop layout st.enemies rnd uuid now pIdx 0
    (moveMs0 layout sqrtHalf now pIdx player dx dy st k).powerups.length
    (moveMs0 layout sqrtHalf now pIdx player dx dy st k)

/-- The state after the grass pickup loop (magnet activity and radii read
from the player record as updated by the powerup loop). -/
def moveMs2 (layout : CityLayout) (rnd : ℕ → ℚ) (sqrtO : ℚ → ℚ) (sqrtHalf : ℚ)
    (uuid : ℕ → String) (now : ℚ) (pIdx : ℕ) (player : ServerPlayer) (dx dy : ℚ)
    (st : GameState) (k : ℕ) : MoveLoopState :=
  let ms1 := moveMs1 layout rnd sqrtHalf uuid now pIdx player dx dy st k
  let magnetRadius := getGrassMagnetRadius ms1.player now
  grassLoop layout st.enemies rnd sqrtO (decide (ms1.player.magnetUntil > now))
    getGrassTouchRadius (magnetRadius * magnetRadius) 0 ms1.grasses.length ms1

/-- The game state after movement, pickups and scoring, before the
synchronous `updateEnemies` call. -/
def moveStMid (layout : CityLayout) (rnd : ℕ → ℚ) (sqrtO : ℚ → ℚ) (sqrtHalf : ℚ)
    (uuid : ℕ → String) (now : ℚ) (pIdx : ℕ) (player : ServerPlayer) (dx dy : ℚ)
    (st : GameState) (k : ℕ) : GameState :=
  let ms2 := moveMs2 layout rnd sqrtO sqrtHalf uuid now pIdx player dx dy st k
  let scored := applyGrassScore st.userScores ms2.players ms2.player.userId
    ms2.player.score (pointsAwardedFor ms2.touched (decide (ms2.player.doubleUntil > now)))
  { st with
    players := scored.2.1
    userScores := scored.1
    grasses := ms2.grasses
    powerups := ms2.powerups }

/-- The body of the move handler after the zero-direction early return:
resolve the movement, run both pickup loops, apply the grass score, run the
synchronous `updateEnemies`, and broadcast. -/
def handleMove (layout : CityLayout) (rnd : ℕ → ℚ) (sqrtO : ℚ → ℚ) (sqrtHalf : ℚ)
    (uuid : ℕ → String) (now : ℚ) (pIdx : ℕ) (player : ServerPlayer) (dx dy : ℚ)
    (st : GameState) (k : ℕ) : MessageResult × ℕ :=
  let tick := updateEnemies layout rnd sqrtO
    (moveStMid layout rnd sqrtO sqrtHalf uuid now pIdx player dx dy st k)
    (moveMs2 layout rnd sqrtO sqrtHalf uuid now pIdx player dx dy st k).k
  ({ state := tick.1.state, replies := [], broadcasts := 1, closeCode := none }, tick.2)

/-- The `message` hook: ignore messages from unregistered connections,
reply with an error on unparsable JSON, handle `set-color` and `move`,
ignore any other message type. -/
def handleMessage (layout : CityLayout) (rnd : ℕ → ℚ) (sqrtO : ℚ → ℚ) (sqrtHalf : ℚ)
    (uuid : ℕ → String) (now : ℚ) (peerId : String) (msg : ClientMessage)
    (st : GameState) (k : ℕ) : MessageResult × ℕ :=
  match findPlayer st peerId with
  | none => ({ state := st, replies := [], broadcasts := 0, closeCode := none }, k)
  | some player =>
    match msg with
    | ClientMessage.parseFailure =>
      ({ state := st, replies := [ServerMessage.errorMsg "Invalid message payload."],
         broadcasts := 0, closeCode := none }, k)
    | ClientMessage.setColor colorVal =>
      match sanitizeColorValue colorVal with
      | none =>
        ({ state := st, replies := [ServerMessage.errorMsg "Invalid color format."],
           broadcasts := 0, closeCode := none }, k)
      | some nextColor =>
        let st2 := { st with
          userColors := mapSet st.userColors player.userId nextColor
          players := applyColorToConnectedPlayers st.players player.userId nextColor }
        ({ state := st2, replies := [], broadcasts := 1, closeCode := none }, k)
    | ClientMessage.otherType =>
      ({ state := st, replies := [], broadcasts := 0, closeCode := none }, k)
    | ClientMessage.move dxv dyv =>
      let dx := moveComponent dxv
      let dy := moveComponent dyv
      if dx = 0 ∧ dy = 0 then
        ({ state := st, replies := [], broadcasts := 0, closeCode := none }, k)
      else
        let pIdx := st.players.findIdx fun p => p.connectionId = peerId
        handleMove layout rnd sqrtO sqrtHalf uuid now pIdx player dx dy st k

/-- The `open` hook up to the join delay: the connection only gets a pending
join timer; it is not added to `players` (score/color hydration touches
neither `players` nor `pendingJoinTimers` membership). -/
def openConnection (st : GameState) (peerId : String) : GameState :=
  { st with pendingJoins := st.pendingJoins ++ [peerId] }

/-- An entity's allowed band on one axis pair: `[radius, bound - radius]`
on both axes. -/
def inBoundsFor (radius x y : ℚ) : Prop :=
  radius ≤ x ∧ x ≤ MAP_WIDTH - radius ∧ radius ≤ y ∧ y ≤ MAP_HEIGHT - radius

instance (radius x y : ℚ) : Decidable (inBoundsFor radius x y) := by
  unfold inBoundsFor; infer_instance

/-- A live player position is legal: in bounds for `PLAYER_RADIUS` and not
inside any building. -/
def playerOk (buildings : List Rect) (p : ServerPlayer) : Prop :=
  inBoundsFor PLAYER_RADIUS p.x p.y ∧
    isCircleBlockedByBuildings buildings p.x p.y PLAYER_RADIUS = false

/-- A live enemy position is legal: in bounds for `ENEMY_RADIUS` and not
inside any building. -/
def enemyOk (buildings : List Rect) (e : EnemySpot) : Prop :=
  inBoundsFor ENEMY_RADIUS e.x e.y ∧
    isCircleBlockedByBuildings buildings e.x e.y ENEMY_RADIUS = false

/-- The movement invariant of the spec: every player and every enemy center
is within its band and outside every building. -/
def entitiesOk (buildings : List Rect) (st : GameState) : Prop :=
  (∀ p ∈ st.players, playerOk buildings p) ∧ (∀ e ∈ st.enemies, enemyOk buildings e)

instance (buildings : List Rect) (p : ServerPlayer) : Decidable (playerOk buildings p) := by
  unfold playerOk; infer_instance

instance (buildings : List Rect) (e : EnemySpot) : Decidable (enemyOk buildings e) := by
  unfold enemyOk; infer_instance

instance (buildings : List Rect) (st : GameState) : Decidable (entitiesOk buildings st) := by
  unfold entitiesOk; infer_instance

/-- A move intent or one enemy tick, the two operations of the simulation
loop that move entities. -/
inductive Op where
  | move (peerId : String) (dx dy : JsNum) (now : ℚ)
  | enemyTick

/-- Run a sequence of move intents and enemy ticks. -/
def runOps (layout : CityLayout) (rnd : ℕ → ℚ) (sqrtO : ℚ → ℚ) (sqrtHalf : ℚ)
    (uuid : ℕ → String) : List Op → GameState × ℕ → GameState × ℕ
  | [], s => s
  | Op.move peerId dx dy now :: rest, s =>
    let r := handleMessage layout rnd sqrtO sqrtHalf uuid now peerId
      (ClientMessage.move dx dy) s.1 s.2
    runOps layout rnd sqrtO sqrtHalf uuid rest (r.1.state, r.2)
  | Op.enemyTick :: rest, s =>
    let r := updateEnemies layout rnd sqrtO s.1 s.2
    runOps layout rnd sqrtO sqrtHalf uuid rest (r.1.state, r.2)

theorem clamp_mem (value lo hi : ℚ) (h : lo ≤ hi) :
    lo ≤ clamp value lo hi ∧ clamp value lo hi ≤ hi := by
  unfold clamp
  exact ⟨le_min h (le_max_left lo value), min_le_left hi _⟩

theorem clamp_le_right (value lo hi : ℚ) : clamp value lo hi ≤ hi :=
  min_le_left hi _

theorem randomBetween_mem (rnd : ℕ → ℚ) (k : ℕ) (lo hi : ℚ)
    (h0 : 0 ≤ rnd k) (h1 : rnd k < 1) (hlohi : lo ≤ hi)
    (hint : ∃ m : ℤ, hi - lo = (m : ℚ)) :
    lo ≤ (randomBetween rnd k lo hi).1 ∧ (randomBetween rnd k lo hi).1 ≤ hi := by
  obtain ⟨m, hm⟩ := hint
  unfold randomBetween
  have hspan : (0 : ℚ) < hi - lo + 1 := by linarith
  constructor
  · have : (0 : ℤ) ≤ ⌊rnd k * (hi - lo + 1)⌋ :=
      Int.floor_nonneg.mpr (mul_nonneg h0 (le_of_lt hspan))
    have : (0 : ℚ) ≤ (⌊rnd k * (hi - lo + 1)⌋ : ℚ) := by exact_mod_cast this
    simp only
    linarith
  · have hlt : rnd k * (hi - lo + 1) < hi - lo + 1 := by
      calc rnd k * (hi - lo + 1) < 1 * (hi - lo + 1) := by
            exact mul_lt_mul_of_pos_right h1 hspan
        _ = hi - lo + 1 := one_mul _
    have hlt2 : rnd k * (hi - lo + 1) < ((m + 1 : ℤ) : ℚ) := by
      push_cast
      linarith [hm]
    have hfl : ⌊rnd k * (hi - lo + 1)⌋ < m + 1 := Int.floor_lt.mpr hlt2
    have hfl2 : ⌊rnd k * (hi - lo + 1)⌋ ≤ m := by omega
    have hflq : (⌊rnd k * (hi - lo + 1)⌋ : ℚ) ≤ (m : ℚ) := by exact_mod_cast hfl2
    simp only
    linarith [hm]

theorem tryOrder_ok (buildings : List Rect) (r cx cy btx bty : ℚ) (o : Bool)
    (hbtx : r ≤ btx ∧ btx ≤ MAP_WIDTH - r) (hbty : r ≤ bty ∧ bty ≤ MAP_HEIGHT - r)
    (hin : inBoundsFor r cx cy)
    (hb : isCircleBlockedByBuildings buildings cx cy r = false) :
    inBoundsFor r (tryOrder buildings cx cy btx bty r o).x (tryOrder buildings cx cy btx bty r o).y ∧
      isCircleBlockedByBuildings buildings (tryOrder buildings cx cy btx bty r o).x
        (tryOrder buildings cx cy btx bty r o).y r = false := by
  obtain ⟨hcx1, hcx2, hcy1, hcy2⟩ := hin
  cases o with
  | true =>
    by_cases h1 : isCircleBlockedByBuildings buildings btx cy r = true
    · by_cases h2 : isCircleBlockedByBuildings buildings cx bty r = true
      · simp only [tryOrder, h1, h2, if_true, if_pos]
        exact ⟨⟨hcx1, hcx2, hcy1, hcy2⟩, hb⟩
      · rw [Bool.not_eq_true] at h2
        simp only [tryOrder, h1, h2, if_true, Bool.false_eq_true, if_false]
        exact ⟨⟨hcx1, hcx2, hbty.1, hbty.2⟩, trivial⟩
    · rw [Bool.not_eq_true] at h1
      by_cases h2 : isCircleBlockedByBuildings buildings btx bty r = true
      · simp only [tryOrder, h1, h2, if_true, Bool.false_eq_true, if_false]
        exact ⟨⟨hbtx.1, hbtx.2, hcy1, hcy2⟩, trivial⟩
      · rw [Bool.not_eq_true] at h2
        simp only [tryOrder, h1, h2, if_true, Bool.false_eq_true, if_false]
        exact ⟨⟨hbtx.1, hbtx.2, hbty.1, hbty.2⟩, trivial⟩
  | false =>
    by_cases h1 : isCircleBlockedByBuildings buildings cx bty r = true
    · by_cases h2 : isCircleBlockedByBuildings buildings btx cy r = true
      · simp only [tryOrder, h1, h2, if_true, Bool.false_eq_true, if_false]
        exact ⟨⟨hcx1, hcx2, hcy1, hcy2⟩, hb⟩
      · rw [Bool.not_eq_true] at h2
        simp only [tryOrder, h1, h2, if_true, Bool.false_eq_true, if_false]
        exact ⟨⟨hbtx.1, hbtx.2, hcy1, hcy2⟩, trivial⟩
    · rw [Bool.not_eq_true] at h1
      by_cases h2 : isCircleBlockedByBuildings buildings btx bty r = true
      · simp only [tryOrder, h1, h2, if_true, Bool.false_eq_true, if_false]
        exact ⟨⟨hcx1, hcx2, hbty.1, hbty.2⟩, trivial⟩
      · rw [Bool.not_eq_true] at h2
        simp only [tryOrder, h1, h2, if_true, Bool.false_eq_true, if_false]
        exact ⟨⟨hbtx.1, hbtx.2, hbty.1, hbty.2⟩, trivial⟩

theorem resolveBlockedMovement_ok (buildings : List Rect) (r cx cy tx ty : ℚ)
    (hr : r ≤ MAP_WIDTH - r) (hr2 : r ≤ MAP_HEIGHT - r)
    (hin : inBoundsFor r cx cy)
    (hb : isCircleBlockedByBuildings buildings cx cy r = false) :
    inBoundsFor r (resolveBlockedMovement buildings cx cy tx ty r).x
        (resolveBlockedMovement buildings cx cy tx ty r).y ∧
      isCircleBlockedByBuildings buildings (resolveBlockedMovement buildings cx cy tx ty r).x
        (resolveBlockedMovement buildings cx cy tx ty r).y r = false := by
  unfold resolveBlockedMovement
  have hbtx := clamp_mem tx r (MAP_WIDTH - r) hr
  have hbty := clamp_mem ty r (MAP_HEIGHT - r) hr2
  have hxy := tryOrder_ok buildings r cx cy (clamp tx r (MAP_WIDTH - r))
    (clamp ty r (MAP_HEIGHT - r)) true hbtx hbty hin hb
  have hyx := tryOrder_ok buildings r cx cy (clamp tx r (MAP_WIDTH - r))
    (clamp ty r (MAP_HEIGHT - r)) false hbtx hbty hin hb
  by_cases h : (tryOrder buildings cx cy (clamp tx r (MAP_WIDTH - r))
      (clamp ty r (MAP_HEIGHT - r)) r true).movedSquared ≥
      (tryOrder buildings cx cy (clamp tx r (MAP_WIDTH - r))
        (clamp ty r (MAP_HEIGHT - r)) r false).movedSquared
  · simp only [h, if_pos]
    exact hxy
  · simp only [h, if_neg, if_false]
    exact hyx

theorem movePointToward_ok (buildings : List Rect) (sqrtO : ℚ → ℚ)
    (cx cy tx ty maxStep : ℚ)
    (hin : inBoundsFor ENEMY_RADIUS cx cy)
    (hb : isCircleBlockedByBuildings buildings cx cy ENEMY_RADIUS = false) :
    inBoundsFor ENEMY_RADIUS (movePointToward buildings sqrtO cx cy tx ty maxStep).x
        (movePointToward buildings sqrtO cx cy tx ty maxStep).y ∧
      isCircleBlockedByBuildings buildings
        (movePointToward buildings sqrtO cx cy tx ty maxStep).x
        (movePointToward buildings sqrtO cx cy tx ty maxStep).y ENEMY_RADIUS = false := by
  unfold movePointToward
  by_cases h : (tx - cx) * (tx - cx) + (ty - cy) * (ty - cy) ≤ 1 / 10000
  · simp only [h, if_pos]
    exact ⟨hin, hb⟩
  · simp only [h, if_neg, if_false]
    have hr : ENEMY_RADIUS ≤ MAP_WIDTH - ENEMY_RADIUS := by norm_num [ENEMY_RADIUS, MAP_WIDTH]
    have hr2 : ENEMY_RADIUS ≤ MAP_HEIGHT - ENEMY_RADIUS := by norm_num [ENEMY_RADIUS, MAP_HEIGHT]
    exact resolveBlockedMovement_ok buildings ENEMY_RADIUS cx cy _ _ hr hr2 hin hb

theorem mapGet_mapSet_self {β : Type} (m : List (String × β)) (key : String) (v : β) :
    mapGet (mapSet m key v) key = some v := by
  induction m with
  | nil => simp [mapSet, mapGet]
  | cons hd tl ih =>
    obtain ⟨k, w⟩ := hd
    by_cases h : k = key
    · simp [mapSet, mapGet, h]
    · simp [mapSet, mapGet, h, ih]

theorem mapGet_mapSet_other {β : Type} (m : List (String × β)) (key key2 : String) (v : β)
    (h : key2 ≠ key) : mapGet (mapSet m key v) key2 = mapGet m key2 := by
  induction m with
  | nil => simp [mapSet, mapGet, Ne.symm h]
  | cons hd tl ih =>
    obtain ⟨k, w⟩ := hd
    by_cases hk : k = key
    · subst hk
      simp [mapSet, mapGet, Ne.symm h]
    · by_cases hk2 : k = key2
      · simp [mapSet, mapGet, hk, hk2, h]
      · simp [mapSet, mapGet, hk, hk2, ih]

/-- C3: `extendPowerup(e, now, d) = max(e, now) + d`; it is monotone in the
current expiry, applying it twice (at `now1 ≤ now2`) yields an expiry at
least as late as applying it once at either time, applying it at or after
the old expiry yields exactly `now + d`, and (for nonnegative durations) it
never shortens the buff. -/
theorem extendPowerup_spec :
    (∀ e now d : ℚ, extendPowerup e now d = max e now + d) ∧
    (∀ e e' now d : ℚ, e ≤ e' → extendPowerup e now d ≤ extendPowerup e' now d) ∧
    (∀ e n1 n2 d : ℚ, n1 ≤ n2 → 0 ≤ d →
      extendPowerup e n2 d ≤ extendPowerup (extendPowerup e n1 d) n2 d ∧
      extendPowerup e n1 d ≤ extendPowerup (extendPowerup e n1 d) n2 d) ∧
    (∀ e now d : ℚ, e ≤ now → extendPowerup e now d = now + d) ∧
    (∀ e now d : ℚ, 0 ≤ d → e ≤ extendPowerup e now d) := by
  have hmax : ∀ e now d : ℚ, extendPowerup e now d = max e now + d := by
    intro e now d
    unfold extendPowerup
    by_cases h : e > now
    · rw [if_pos h, max_eq_left (le_of_lt h)]
    · rw [if_neg h, max_eq_right (le_of_not_lt h)]
  refine ⟨hmax, ?_, ?_, ?_, ?_⟩
  · intro e e' now d h
    rw [hmax, hmax]
    exact add_le_add_right (max_le_max h (le_refl now)) d
  · intro e n1 n2 d h hd
    simp only [hmax]
    constructor
    · apply add_le_add_right
      apply max_le
      · calc e ≤ max e n1 := le_max_left e n1
          _ ≤ max e n1 + d := le_add_of_nonneg_right hd
          _ ≤ max (max e n1 + d) n2 := le_max_left _ _
      · exact le_max_right _ _
    · apply add_le_add_right
      calc max e n1 ≤ max e n1 + d := le_add_of_nonneg_right hd
        _ ≤ max (max e n1 + d) n2 := le_max_left _ _
  · intro e now d h
    rw [hmax, max_eq_right h]
  · intro e now d hd
    rw [hmax]
    calc e ≤ max e now := le_max_left e now
      _ ≤ max e now + d := le_add_of_nonneg_right hd

/-- Witness for C3 at concrete inputs. -/
theorem extendPowerup_spec_witness :
    extendPowerup 5000 3000 8000 = max (5000 : ℚ) 3000 + 8000 ∧
    extendPowerup 1000 2000 8000 ≤ extendPowerup 1500 2000 8000 ∧
    extendPowerup 0 100 9000 ≤ extendPowerup (extendPowerup 0 50 9000) 100 9000 ∧
    extendPowerup 500 700 10000 = 700 + 10000 ∧
    (600 : ℚ) ≤ extendPowerup 600 0 8000 := by
  refine ⟨extendPowerup_spec.1 5000 3000 8000,
    extendPowerup_spec.2.1 1000 1500 2000 8000 (by norm_num),
    (extendPowerup_spec.2.2.1 0 50 100 9000 (by norm_num) (by norm_num)).1,
    extendPowerup_spec.2.2.2.1 500 700 10000 (by norm_num),
    extendPowerup_spec.2.2.2.2 600 0 8000 (by norm_num)⟩

/-- C6: with `n ≥ 1` grass items collected in one intent, the points added
equal `n`, doubled when the double buff is active, plus the flat
`OVERGROWTH_BONUS` (not doubled) when `n ≥ OVERGROWTH_THRESHOLD`; the
resulting score `(userScores.get(uid) ?? player.score) + points` is stored
in the user-score map and applied to every live connection of that user,
and exactly one score-delta persistence write of `points` is issued. -/
theorem grassScoring_spec :
    (∀ (n : ℕ) (dbl : Bool), 1 ≤ n →
      pointsAwardedFor n dbl =
        n * (if dbl then 2 else 1) +
          (if OVERGROWTH_THRESHOLD ≤ n then OVERGROWTH_BONUS else 0)) ∧
    (∀ (userScores : List (String × ℚ)) (playersL : List ServerPlayer)
        (uid : String) (fallbackScore : ℚ) (pts : ℕ), 1 ≤ pts →
      mapGet (applyGrassScore userScores playersL uid fallbackScore pts).1 uid =
          some ((mapGet userScores uid).getD fallbackScore + (pts : ℚ)) ∧
      (∀ p ∈ (applyGrassScore userScores playersL uid fallbackScore pts).2.1,
        p.userId = uid → p.score = (mapGet userScores uid).getD fallbackScore + (pts : ℚ)) ∧
      (applyGrassScore userScores playersL uid fallbackScore pts).2.2 = [(uid, pts)]) := by
  constructor
  · intro n dbl hn
    have hpos : 0 < n := hn
    unfold pointsAwardedFor OVERGROWTH_THRESHOLD OVERGROWTH_BONUS
    cases dbl <;> by_cases h4 : 4 ≤ n <;> simp [hpos, h4]
  · intro userScores playersL uid fallbackScore pts hpts
    have hpos : 0 < pts := hpts
    unfold applyGrassScore
    rw [if_pos hpos]
    refine ⟨?_, ?_, rfl⟩
    · exact mapGet_mapSet_self userScores uid _
    · intro p hp hpu
      unfold applyScoreToConnectedPlayers at hp
      obtain ⟨q, hq, hfq⟩ := List.mem_map.mp hp
      by_cases hqu : q.userId = uid
      · rw [if_pos hqu] at hfq
        rw [← hfq]
      · rw [if_neg hqu] at hfq
        rw [← hfq] at hpu
        exact absurd hpu hqu

/-- Witness for C6: collecting 5 items with the double buff active. -/
theorem grassScoring_spec_witness :
    pointsAwardedFor 5 true =
      5 * (if true then 2 else 1) +
        (if OVERGROWTH_THRESHOLD ≤ 5 then OVERGROWTH_BONUS else 0) ∧
    mapGet (applyGrassScore [] [] "u" 7 (pointsAwardedFor 5 true)).1 "u" =
      some ((mapGet ([] : List (String × ℚ)) "u").getD 7 + ((pointsAwardedFor 5 true : ℕ) : ℚ)) :=
  ⟨grassScoring_spec.1 5 true (by norm_num),
    (grassScoring_spec.2 [] [] "u" 7 (pointsAwardedFor 5 true) (by decide)).1⟩

/-- C7: any 3-hex-digit color (with or without leading `#`, any case — i.e.
whose trimmed, lowercased form is `#rgb` or `rgb` with lowercase hex digits)
is normalized to the lowercase 6-digit form `#rrggbb`; a valid `set-color`
stores it for the user and shows it on every connection of that user in the
next broadcast; an invalid color string such as `"zzz"` gets exactly one
error reply, leaves the whole state unchanged, and does not close the
connection. -/
theorem setColor_spec :
    (∀ (s : String) (r g b : Char),
      (jsToLower (jsTrim s.data) = ['#', r, g, b] ∨ jsToLower (jsTrim s.data) = [r, g, b]) →
      isLowerHexDigit r = true → isLowerHexDigit g = true → isLowerHexDigit b = true →
      sanitizeColor s = some (String.mk ['#', r, r, g, g, b, b])) ∧
    sanitizeColor "#ABC" = some "#aabbcc" ∧
    sanitizeColor "zzz" = none ∧
    (∀ layout rnd sqrtO sqrtHalf uuid now peerId st k player c nextColor,
      findPlayer st peerId = some player →
      sanitizeColorValue c = some nextColor →
      mapGet (handleMessage layout rnd sqrtO sqrtHalf uuid now peerId
          (ClientMessage.setColor c) st k).1.state.userColors player.userId = some nextColor ∧
      (∀ p ∈ (handleMessage layout rnd sqrtO sqrtHalf uuid now peerId
          (ClientMessage.setColor c) st k).1.state.players,
        p.userId = player.userId → p.color = nextColor) ∧
      (∀ w ∈ (getWorldState layout now (handleMessage layout rnd sqrtO sqrtHalf uuid now peerId
          (ClientMessage.setColor c) st k).1.state).players,
        w.userId = player.userId → w.color = nextColor) ∧
      (handleMessage layout rnd sqrtO sqrtHalf uuid now peerId
          (ClientMessage.setColor c) st k).1.broadcasts = 1 ∧
      (handleMessage layout rnd sqrtO sqrtHalf uuid now peerId
          (ClientMessage.setColor c) st k).1.closeCode = none) ∧
    (∀ layout rnd sqrtO sqrtHalf uuid now peerId st k player c,
      findPlayer st peerId = some player →
      sanitizeColorValue c = none →
      handleMessage layout rnd sqrtO sqrtHalf uuid now peerId
          (ClientMessage.setColor c) st k =
        ({ state := st, replies := [ServerMessage.errorMsg "Invalid color format."],
           broadcasts := 0, closeCode := none }, k)) := by
  refine ⟨?_, by decide, by decide, ?_, ?_⟩
  · intro s r g b hbody hr hg hb
    unfold sanitizeColor
    rcases hbody with hbody | hbody
    · rw [hbody]
      simp [List.head?, List.tail, hr, hg, hb, List.flatMap]
    · rw [hbody]
      have hrne : r ≠ '#' := by
        intro e
        rw [e] at hr
        exact absurd hr (by decide)
      simp [List.head?, hrne, hr, hg, hb, List.flatMap]
  · intro layout rnd sqrtO sqrtHalf uuid now peerId st k player c nextColor hfind hc
    unfold handleMessage
    rw [hfind]
    simp only [hc]
    refine ⟨?_, ?_, ?_, by trivial, by trivial⟩
    · exact mapGet_mapSet_self st.userColors player.userId nextColor
    · intro p hp hpu
      unfold applyColorToConnectedPlayers at hp
      obtain ⟨q, hq, hfq⟩ := List.mem_map.mp hp
      by_cases hqu : q.userId = player.userId
      · rw [if_pos hqu] at hfq
        rw [← hfq]
      · rw [if_neg hqu] at hfq
        rw [← hfq] at hpu
        exact absurd hpu hqu
    · intro w hw hwu
      unfold getWorldState at hw
      obtain ⟨q, hq, hfq⟩ := List.mem_map.mp hw
      unfold applyColorToConnectedPlayers at hq
      obtain ⟨q0, hq0, hfq0⟩ := List.mem_map.mp hq
      by_cases hqu : q0.userId = player.userId
      · rw [if_pos hqu] at hfq0
        rw [← hfq, ← hfq0]
      · rw [if_neg hqu] at hfq0
        rw [← hfq, ← hfq0] at hwu
        simp at hwu
        exact absurd hwu hqu
  · intro layout rnd sqrtO sqrtHalf uuid now peerId st k player c hfind hc
    unfold handleMessage
    rw [hfind]
    simp only [hc]

/-- A concrete player used by witnesses. -/
def samplePlayer : ServerPlayer :=
  { connectionId := "c1", userId := "u1", name := "P", color := "#ffffff",
    x := 100, y := 100, score := 0, speedUntil := 0, magnetUntil := 0, doubleUntil := 0 }

/-- A concrete state used by witnesses: one registered player and one
pending (pre-join-delay) connection. -/
def sampleState : GameState :=
  { players := [samplePlayer], userScores := [("u1", 0)], userColors := [],
    pendingJoins := ["c2"], grasses := [], powerups := [], enemies := [] }

/-- An empty city layout used by witnesses. -/
def emptyLayout : CityLayout :=
  { streets := [], buildings := [] }

/-- Witness for C7: `"#AbC"` normalizes, a valid `set-color` stores the
color, `"zzz"` yields the error reply and no state change. -/
theorem setColor_spec_witness :
    sanitizeColor "#AbC" = some (String.mk ['#', 'a', 'a', 'b', 'b', 'c', 'c']) ∧
    mapGet (handleMessage emptyLayout (fun _ => 0) (fun _ => 0) 0 (fun _ => "") 0 "c1"
        (ClientMessage.setColor (JsValue.str "#ABC")) sampleState 0).1.state.userColors
      samplePlayer.userId = some "#aabbcc" ∧
    handleMessage emptyLayout (fun _ => 0) (fun _ => 0) 0 (fun _ => "") 0 "c1"
        (ClientMessage.setColor (JsValue.str "zzz")) sampleState 0 =
      ({ state := sampleState, replies := [ServerMessage.errorMsg "Invalid color format."],
         broadcasts := 0, closeCode := none }, 0) :=
  ⟨setColor_spec.1 "#AbC" 'a' 'b' 'c' (Or.inl (by decide)) (by decide) (by decide) (by decide),
    (setColor_spec.2.2.2.1 emptyLayout (fun _ => 0) (fun _ => 0) 0 (fun _ => "") 0 "c1"
      sampleState 0 samplePlayer (JsValue.str "#ABC") "#aabbcc" (by decide) (by decide)).1,
    setColor_spec.2.2.2.2 emptyLayout (fun _ => 0) (fun _ => 0) 0 (fun _ => "") 0 "c1"
      sampleState 0 samplePlayer (JsValue.str "zzz") (by decide) (by decide)⟩

/-- C10: a non-numeric move component (`NaN` after `Number` coercion) is
treated as `0` rather than rejected, infinities clamp to `±1`, a finite
component clamps into `[-1, 1]`; when both components coerce to `0` the
move intent changes nothing, broadcasts nothing and sends no reply — while
unparsable JSON (for a registered connection) gets exactly one error reply
and changes nothing. -/
theorem moveCoercion_spec :
    moveComponent JsNum.nan = 0 ∧
    moveComponent JsNum.posInf = 1 ∧
    moveComponent JsNum.negInf = -1 ∧
    (∀ q : ℚ, moveComponent (JsNum.num q) = clamp q (-1) 1) ∧
    (∀ layout rnd sqrtO sqrtHalf uuid now peerId st k vx vy,
      moveComponent vx = 0 → moveComponent vy = 0 →
      handleMessage layout rnd sqrtO sqrtHalf uuid now peerId
          (ClientMessage.move vx vy) st k =
        ({ state := st, replies := [], broadcasts := 0, closeCode := none }, k)) ∧
    (∀ layout rnd sqrtO sqrtHalf uuid now peerId st k player,
      findPlayer st peerId = some player →
      handleMessage layout rnd sqrtO sqrtHalf uuid now peerId
          ClientMessage.parseFailure st k =
        ({ state := st, replies := [ServerMessage.errorMsg "Invalid message payload."],
           broadcasts := 0, closeCode := none }, k)) := by
  refine ⟨by decide, by decide, by decide, ?_, ?_, ?_⟩
  · intro q
    by_cases h : q = 0
    · subst h
      simp [moveComponent, orZero, clamp]
    · simp [moveComponent, orZero, h]
  · intro layout rnd sqrtO sqrtHalf uuid now peerId st k vx vy hx hy
    unfold handleMessage
    cases hfind : findPlayer st peerId with
    | none => rfl
    | some player =>
      simp [hx, hy]
  · intro layout rnd sqrtO sqrtHalf uuid now peerId st k player hfind
    unfold handleMessage
    rw [hfind]

/-- Witness for C10: the zero-coercion early return and the parse-error
reply at a concrete state. -/
theorem moveCoercion_spec_witness :
    handleMessage emptyLayout (fun _ => 0) (fun _ => 0) 0 (fun _ => "") 0 "c1"
        (ClientMessage.move JsNum.nan JsNum.nan) sampleState 0 =
      ({ state := sampleState, replies := [], broadcasts := 0, closeCode := none }, 0) ∧
    handleMessage emptyLayout (fun _ => 0) (fun _ => 0) 0 (fun _ => "") 0 "c1"
        ClientMessage.parseFailure sampleState 0 =
      ({ state := sampleState,
         replies := [ServerMessage.errorMsg "Invalid message payload."],
         broadcasts := 0, closeCode := none }, 0) :=
  ⟨moveCoercion_spec.2.2.2.2.1 emptyLayout (fun _ => 0) (fun _ => 0) 0 (fun _ => "") 0 "c1"
      sampleState 0 JsNum.nan JsNum.nan (by decide) (by decide),
    moveCoercion_spec.2.2.2.2.2 emptyLayout (fun _ => 0) (fun _ => 0) 0 (fun _ => "") 0 "c1"
      sampleState 0 samplePlayer (by decide)⟩

/-- C4 counterexample: in a concrete state with one registered player
(`"c1"`) and one authenticated connection (`"c2"`) still inside its join
delay, the broadcast is delivered only to `"c1"` — the waiting connection
is *not* among the recipients, refuting that every broadcast during the
waiting period is delivered to it (it is also absent from the players
list, which is the part of the claim that does hold). -/
theorem pendingDelivery_cex :
    "c2" ∈ sampleState.pendingJoins ∧
    broadcastRecipients sampleState = ["c1"] ∧
    "c2" ∉ broadcastRecipients sampleState ∧
    ∀ w ∈ (getWorldState emptyLayout 0 sampleState).players, w.connectionId ≠ "c2" := by
  refine ⟨by decide, by decide, by decide, ?_⟩
  intro w hw
  simp [getWorldState, sampleState, samplePlayer] at hw
  rw [hw]
  decide

/-- C4 (amended): a connection that has been opened but whose join delay
has not yet elapsed is tracked only in the pending-join set and is not in
the players map; every world-state broadcast goes exactly to the registered
players, so the waiting connection receives none of the broadcasts that
occur during the waiting period, and it does not appear in any broadcast's
players list. -/
theorem pendingConnection_spec :
    (∀ st peerId, peerId ∈ (openConnection st peerId).pendingJoins ∧
      (openConnection st peerId).players = st.players) ∧
    (∀ st : GameState, broadcastRecipients st = st.players.map fun p => p.connectionId) ∧
    (∀ (st : GameState) (c : String), c ∉ st.players.map (fun p => p.connectionId) →
      c ∉ broadcastRecipients st ∧
      ∀ (layout : CityLayout) (now : ℚ),
        ∀ w ∈ (getWorldState layout now st).players, w.connectionId ≠ c) := by
  refine ⟨?_, fun st => rfl, ?_⟩
  · intro st peerId
    exact ⟨List.mem_append_right _ (List.mem_singleton.mpr rfl), rfl⟩
  · intro st c hc
    constructor
    · exact hc
    · intro layout now w hw hwc
      unfold getWorldState at hw
      obtain ⟨p, hp, hfp⟩ := List.mem_map.mp hw
      apply hc
      rw [← hfp] at hwc
      simp at hwc
      rw [← hwc]
      exact List.mem_map.mpr ⟨p, hp, rfl⟩

/-- Witness for C4 (amended) at the concrete sample state. -/
theorem pendingConnection_spec_witness :
    "c2" ∉ broadcastRecipients sampleState ∧
    ∀ w ∈ (getWorldState emptyLayout 0 sampleState).players, w.connectionId ≠ "c2" :=
  ⟨(pendingConnection_spec.2.2 sampleState "c2" (by decide)).1,
    (pendingConnection_spec.2.2 sampleState "c2" (by decide)).2 emptyLayout 0⟩

theorem closerPlayer_fold (e : EnemySpot) :
    ∀ (ps : List ServerPlayer) (b : ServerPlayer),
      ∃ p, ps.foldl (closerPlayer e) (some (b, distSq b.x b.y e.x e.y)) =
          some (p, distSq p.x p.y e.x e.y) ∧
        (p = b ∨ p ∈ ps) ∧
        distSq p.x p.y e.x e.y ≤ distSq b.x b.y e.x e.y ∧
        ∀ q ∈ ps, distSq p.x p.y e.x e.y ≤ distSq q.x q.y e.x e.y := by
  intro ps
  induction ps with
  | nil =>
    intro b
    exact ⟨b, rfl, Or.inl rfl, le_refl _, by simp⟩
  | cons hd tl ih =>
    intro b
    by_cases h : distSq hd.x hd.y e.x e.y < distSq b.x b.y e.x e.y
    · obtain ⟨p, hfold, hmem, hle, hall⟩ := ih hd
      refine ⟨p, ?_, ?_, ?_, ?_⟩
      · rw [List.foldl_cons]
        simpa [closerPlayer, h] using hfold
      · rcases hmem with h1 | h1
        · exact Or.inr (by rw [h1]; exact List.mem_cons_self hd tl)
        · exact Or.inr (List.mem_cons_of_mem hd h1)
      · exact le_trans hle (le_of_lt h)
      · intro q hq
        rcases List.mem_cons.mp hq with h1 | h1
        · rw [h1]; exact hle
        · exact hall q h1
    · obtain ⟨p, hfold, hmem, hle, hall⟩ := ih b
      refine ⟨p, ?_, ?_, hle, ?_⟩
      · rw [List.foldl_cons]
        simpa [closerPlayer, h] using hfold
      · rcases hmem with h1 | h1
        · exact Or.inl h1
        · exact Or.inr (List.mem_cons_of_mem hd h1)
      · intro q hq
        rcases List.mem_cons.mp hq with h1 | h1
        · rw [h1]
          exact le_trans hle (le_of_not_lt h)
        · exact hall q h1

theorem findClosestPlayer_min (e : EnemySpot) (ps : List ServerPlayer) (hne : ps ≠ []) :
    ∃ p, findClosestPlayer e ps = some p ∧ p ∈ ps ∧
      ∀ q ∈ ps, distSq p.x p.y e.x e.y ≤ distSq q.x q.y e.x e.y := by
  cases ps with
  | nil => exact absurd rfl hne
  | cons hd tl =>
    obtain ⟨p, hfold, hmem, hle, hall⟩ := closerPlayer_fold e tl hd
    refine ⟨p, ?_, ?_, ?_⟩
    · unfold findClosestPlayer
      rw [List.foldl_cons]
      have hstep : closerPlayer e none hd = some (hd, distSq hd.x hd.y e.x e.y) := rfl
      rw [hstep, hfold]
      rfl
    · rcases hmem with h1 | h1
      · rw [h1]; exact List.mem_cons_self hd tl
      · exact List.mem_cons_of_mem hd h1
    · intro q hq
      rcases List.mem_cons.mp hq with h1 | h1
      · rw [h1]; exact hle
      · exact hall q h1

/-- The concrete enemy of the C5 counterexample: away from its home. -/
def c5Enemy : EnemySpot :=
  { id := "e1", x := 1000, y := 1000, homeX := 500, homeY := 500, territoryRadius := 900 }

/-- The concrete state of the C5 counterexample: no player connected. -/
def c5State : GameState :=
  { players := [], userScores := [], userColors := [], pendingJoins := [],
    grasses := [], powerups := [], enemies := [c5Enemy] }

/-- C5 counterexample: on an enemy tick with no player connected, the enemy
does *not* move toward home at the return speed — `updateEnemies` returns
immediately and the enemy stays at its current position, which is away from
home. -/
theorem enemyTick_cex :
    c5State.players = [] ∧
    (updateEnemies emptyLayout (fun _ => 0) (fun _ => 0) c5State 0).1.state.enemies =
      [c5Enemy] ∧
    (updateEnemies emptyLayout (fun _ => 0) (fun _ => 0) c5State 0).1.changed = false ∧
    (c5Enemy.x, c5Enemy.y) ≠ (c5Enemy.homeX, c5Enemy.homeY) := by
  decide

/-- C5 (amended): when no player is connected `updateEnemies` returns early
and no enemy moves at all; when at least one player is connected, an enemy
whose squared distance from home exceeds `(territoryRadius × 1.35)²`
targets its home at `ENEMY_SPEED_PER_TICK × ENEMY_RETURN_SPEED_MULTIPLIER`,
and otherwise targets the nearest connected player at
`ENEMY_SPEED_PER_TICK`. -/
theorem enemyTick_spec :
    (∀ layout rnd sqrtO st k, st.players = [] →
      updateEnemies layout rnd sqrtO st k =
        ({ state := st, changed := false, hits := [], respawned := [],
           persists := [] }, k)) ∧
    (∀ (e : EnemySpot) (ps : List ServerPlayer), ps ≠ [] →
      (distSq e.homeX e.homeY e.x e.y >
          (e.territoryRadius * (135 / 100)) * (e.territoryRadius * (135 / 100)) →
        enemyTargetAndSpeed e ps =
          ((e.homeX, e.homeY), ENEMY_SPEED_PER_TICK * ENEMY_RETURN_SPEED_MULTIPLIER)) ∧
      (¬distSq e.homeX e.homeY e.x e.y >
          (e.territoryRadius * (135 / 100)) * (e.territoryRadius * (135 / 100)) →
        ∃ p, p ∈ ps ∧ enemyTargetAndSpeed e ps = ((p.x, p.y), ENEMY_SPEED_PER_TICK) ∧
          ∀ q ∈ ps, distSq p.x p.y e.x e.y ≤ distSq q.x q.y e.x e.y)) := by
  constructor
  · intro layout rnd sqrtO st k h
    unfold updateEnemies
    rw [if_pos (Or.inl (by rw [h]; rfl))]
  · intro e ps hne
    obtain ⟨p, hfind, hmem, hall⟩ := findClosestPlayer_min e ps hne
    constructor
    · intro hfar
      unfold enemyTargetAndSpeed
      rw [hfind]
      simp only [if_pos hfar]
    · intro hnear
      refine ⟨p, hmem, ?_, hall⟩
      unfold enemyTargetAndSpeed
      rw [hfind]
      simp only [if_neg hnear]

/-- Witness for C5 (amended): the early return at the concrete no-player
state, and the chase/return selection for a one-player state. -/
theorem enemyTick_spec_witness :
    updateEnemies emptyLayout (fun _ => 0) (fun _ => 0) c5State 0 =
      ({ state := c5State, changed := false, hits := [], respawned := [],
         persists := [] }, 0) ∧
    enemyTargetAndSpeed c5Enemy [samplePlayer] =
      ((samplePlayer.x, samplePlayer.y), ENEMY_SPEED_PER_TICK) := by
  constructor
  · exact enemyTick_spec.1 emptyLayout (fun _ => 0) (fun _ => 0) c5State 0 (by decide)
  · obtain ⟨p, hmem, heq, hall⟩ :=
      (enemyTick_spec.2 c5Enemy [samplePlayer] (by decide)).2
        (by norm_num [c5Enemy, distSq, samplePlayer])
    have hp : p = samplePlayer := List.mem_singleton.mp hmem
    rw [hp] at heq
    exact heq

/-- Every building of the generated layout sits deep inside the first
block: both coordinates at least `STREET_WIDTH + BUILDING_MARGIN = 216`,
with nonnegative extent. -/
def buildingsFar (buildings : List Rect) : Prop :=
  ∀ b ∈ buildings, 216 ≤ b.x ∧ 216 ≤ b.y ∧ 0 ≤ b.width ∧ 0 ≤ b.height

/-- The generated streets: a nonempty list of rectangles inside the map,
each at least 41 units wide and tall. -/
def streetsWithinMap (layout : CityLayout) : Prop :=
  layout.streets ≠ [] ∧
  ∀ s ∈ layout.streets,
    0 ≤ s.x ∧ s.x + s.width ≤ MAP_WIDTH ∧ 0 ≤ s.y ∧ s.y + s.height ≤ MAP_HEIGHT ∧
      41 ≤ s.width ∧ 41 ≤ s.height

theorem far_corner_not_blocked (buildings : List Rect) (hfar : buildingsFar buildings)
    (x y radius : ℚ) (hx : x ≤ 216) (hr : 0 ≤ radius) (hgap : x + radius < 216) :
    isCircleBlockedByBuildings buildings x y radius = false := by
  unfold isCircleBlockedByBuildings
  rw [List.any_eq_false]
  intro b hb hcontra
  obtain ⟨hbx, hby, hbw, hbh⟩ := hfar b hb
  unfold circleIntersectsRect at hcontra
  simp only [decide_eq_true_eq] at hcontra
  have hclx : clamp x b.x (b.x + b.width) = b.x := by
    unfold clamp
    rw [max_eq_left (le_trans hx hbx), min_eq_right (le_add_of_nonneg_right hbw)]
  rw [hclx] at hcontra
  have hdx : 216 - x ≤ b.x - x := by linarith
  have hpos : 0 < 216 - x := by linarith
  have hsq : (216 - x) * (216 - x) ≤ (b.x - x) * (b.x - x) :=
    mul_le_mul hdx hdx (le_of_lt hpos) (by linarith)
  have hrsq : radius * radius < (216 - x) * (216 - x) := by
    have h1 : radius < 216 - x := by linarith
    calc radius * radius ≤ radius * (216 - x) :=
          mul_le_mul_of_nonneg_left (le_of_lt h1) hr
      _ < (216 - x) * (216 - x) := mul_lt_mul_of_pos_right h1 hpos
  have hdy : 0 ≤ (y - clamp y b.y (b.y + b.height)) * (y - clamp y b.y (b.y + b.height)) :=
    mul_self_nonneg _
  have heq : (x - b.x) * (x - b.x) = (b.x - x) * (b.x - x) := by ring
  linarith [hcontra]

theorem usableWidth_eq : usableWidth = 7734 / 8 := by
  norm_num [usableWidth, cityBlockWidth, MAP_WIDTH, STREET_WIDTH, CITY_COLS, BUILDING_MARGIN]

theorem usableHeight_eq : usableHeight = 7734 / 8 := by
  norm_num [usableHeight, cityBlockHeight, MAP_HEIGHT, STREET_WIDTH, CITY_ROWS, BUILDING_MARGIN]

theorem blockX_ge (col : ℕ) : (170 : ℚ) ≤ blockX col := by
  unfold blockX
  have h : (0 : ℚ) ≤ (col : ℚ) * (cityBlockWidth + STREET_WIDTH) := by
    apply mul_nonneg (Nat.cast_nonneg col)
    norm_num [cityBlockWidth, MAP_WIDTH, STREET_WIDTH, CITY_COLS]
  have hSW : STREET_WIDTH = (170 : ℚ) := rfl
  linarith

theorem blockY_ge (row : ℕ) : (170 : ℚ) ≤ blockY row := by
  unfold blockY
  have h : (0 : ℚ) ≤ (row : ℚ) * (cityBlockHeight + STREET_WIDTH) := by
    apply mul_nonneg (Nat.cast_nonneg row)
    norm_num [cityBlockHeight, MAP_HEIGHT, STREET_WIDTH, CITY_ROWS]
  have hSW : STREET_WIDTH = (170 : ℚ) := rfl
  linarith

theorem blockMainRect_far (su : ℤ → ℚ) (hsu : ∀ s, 0 ≤ su s ∧ su s < 1) (row col : ℕ) :
    216 ≤ (blockMainRect su row col).x ∧ 216 ≤ (blockMainRect su row col).y ∧
      0 ≤ (blockMainRect su row col).width ∧ 0 ≤ (blockMainRect su row col).height := by
  have h0 := hsu (seedBase row col)
  have h1 := hsu (seedBase row col + 1)
  have h2 := hsu (seedBase row col + 2)
  have h3 := hsu (seedBase row col + 3)
  have hU := usableWidth_eq
  have hV := usableHeight_eq
  have hBM : BUILDING_MARGIN = (46 : ℚ) := rfl
  have hbx := blockX_ge col
  have hby := blockY_ge row
  unfold blockMainRect
  simp only
  refine ⟨?_, ?_, ?_, ?_⟩
  · have hoff : 0 ≤ (usableWidth - usableWidth * (52 / 100 + su (seedBase row col) * (3 / 10))) *
        su (seedBase row col + 2) := by
      apply mul_nonneg _ h2.1
      rw [hU]
      nlinarith [h0.1, h0.2]
    linarith
  · have hoff : 0 ≤ (usableHeight - usableHeight * (1 / 2 + su (seedBase row col + 1) * (34 / 100))) *
        su (seedBase row col + 3) := by
      apply mul_nonneg _ h3.1
      rw [hV]
      nlinarith [h1.1, h1.2]
    linarith
  · rw [hU]
    nlinarith [h0.1, h0.2]
  · rw [hV]
    nlinarith [h1.1, h1.2]

theorem blockAnnexRect_far (su : ℤ → ℚ) (hsu : ∀ s, 0 ≤ su s ∧ su s < 1) (row col : ℕ) :
    216 ≤ (blockAnnexRect su row col).x ∧ 216 ≤ (blockAnnexRect su row col).y ∧
      0 ≤ (blockAnnexRect su row col).width ∧ 0 ≤ (blockAnnexRect su row col).height := by
  have h6 := hsu (seedBase row col + 6)
  have h7 := hsu (seedBase row col + 7)
  have hU := usableWidth_eq
  have hV := usableHeight_eq
  have hBM : BUILDING_MARGIN = (46 : ℚ) := rfl
  have hbx := blockX_ge col
  have hby := blockY_ge row
  have haW : max (60 : ℚ) (usableWidth * (2 / 10 + su (seedBase row col + 6) * (22 / 100))) ≤
      usableWidth := by
    rw [hU]
    apply max_le
    · norm_num
    · nlinarith [h6.1, h6.2]
  have haW0 : (0 : ℚ) ≤ max (60 : ℚ)
      (usableWidth * (2 / 10 + su (seedBase row col + 6) * (22 / 100))) :=
    le_trans (by norm_num) (le_max_left _ _)
  have haH : max (60 : ℚ) (usableHeight * (2 / 10 + su (seedBase row col + 7) * (22 / 100))) ≤
      usableHeight := by
    rw [hV]
    apply max_le
    · norm_num
    · nlinarith [h7.1, h7.2]
  have haH0 : (0 : ℚ) ≤ max (60 : ℚ)
      (usableHeight * (2 / 10 + su (seedBase row col + 7) * (22 / 100))) :=
    le_trans (by norm_num) (le_max_left _ _)
  unfold blockAnnexRect
  simp only
  refine ⟨?_, ?_, haW0, haH0⟩
  · by_cases hc : (⌊su (seedBase row col + 5) * 4⌋ = 1 ∨ ⌊su (seedBase row col + 5) * 4⌋ = 3)
    · rw [if_pos hc]
      linarith
    · rw [if_neg hc]
      linarith
  · by_cases hc : (⌊su (seedBase row col + 5) * 4⌋ = 2 ∨ ⌊su (seedBase row col + 5) * 4⌋ = 3)
    · rw [if_pos hc]
      linarith
    · rw [if_neg hc]
      linarith

theorem buildingsFar_createCityLayout (su : ℤ → ℚ)
    (hsu : ∀ s, 0 ≤ su s ∧ su s < 1) :
    buildingsFar (createCityLayout su).buildings := by
  intro b hb
  unfold createCityLayout at hb
  simp only [List.mem_flatMap, List.mem_range] at hb
  obtain ⟨row, hrow, col, hcol, hbmem⟩ := hb
  unfold blockBuildings at hbmem
  by_cases hannex : su (seedBase row col + 4) > 35 / 100
  · rw [if_pos hannex] at hbmem
    rcases List.mem_cons.mp hbmem with hmain | hrest
    · rw [hmain]
      exact blockMainRect_far su hsu row col
    · rcases List.mem_cons.mp hrest with hann | hfalse
      · rw [hann]
        exact blockAnnexRect_far su hsu row col
      · exact absurd hfalse (List.not_mem_nil b)
  · rw [if_neg hannex] at hbmem
    rcases List.mem_cons.mp hbmem with hmain | hfalse
    · rw [hmain]
      exact blockMainRect_far su hsu row col
    · exact absurd hfalse (List.not_mem_nil b)

theorem streetsWithinMap_createCityLayout (su : ℤ → ℚ) :
    streetsWithinMap (createCityLayout su) := by
  constructor
  · intro h
    simp [createCityLayout] at h
  · intro s hs
    unfold createCityLayout at hs
    simp only [List.mem_append, List.mem_map, List.mem_range] at hs
    have hBWSW : cityBlockWidth + STREET_WIDTH = 9830 / 8 := by
      norm_num [cityBlockWidth, MAP_WIDTH, STREET_WIDTH, CITY_COLS]
    have hBHSW : cityBlockHeight + STREET_WIDTH = 9830 / 8 := by
      norm_num [cityBlockHeight, MAP_HEIGHT, STREET_WIDTH, CITY_ROWS]
    rcases hs with ⟨col, hcol, hcs⟩ | ⟨row, hrow, hrs⟩
    · rw [← hcs]
      simp only
      have hc0 : (0 : ℚ) ≤ (col : ℚ) := Nat.cast_nonneg col
      have hc8 : (col : ℚ) ≤ 8 := by
        have : col ≤ 8 := Nat.lt_succ_iff.mp hcol
        exact_mod_cast this
      have hx0 : (0 : ℚ) ≤ (col : ℚ) * (cityBlockWidth + STREET_WIDTH) := by
        rw [hBWSW]; positivity
      have hx8 : (col : ℚ) * (cityBlockWidth + STREET_WIDTH) ≤ 8 * (9830 / 8) := by
        rw [hBWSW]
        exact mul_le_mul_of_nonneg_right hc8 (by norm_num)
      refine ⟨hx0, ?_, by norm_num, ?_, ?_, ?_⟩
      · show (col : ℚ) * (cityBlockWidth + STREET_WIDTH) + STREET_WIDTH ≤ MAP_WIDTH
        have hSW : STREET_WIDTH = (170 : ℚ) := rfl
        have hMW : MAP_WIDTH = (10000 : ℚ) := rfl
        linarith
      · show (0 : ℚ) + MAP_HEIGHT ≤ MAP_HEIGHT
        norm_num
      · norm_num [STREET_WIDTH]
      · norm_num [MAP_HEIGHT]
    · rw [← hrs]
      simp only
      have hr0 : (0 : ℚ) ≤ (row : ℚ) := Nat.cast_nonneg row
      have hr8 : (row : ℚ) ≤ 8 := by
        have : row ≤ 8 := Nat.lt_succ_iff.mp hrow
        exact_mod_cast this
      have hy0 : (0 : ℚ) ≤ (row : ℚ) * (cityBlockHeight + STREET_WIDTH) := by
        rw [hBHSW]; positivity
      have hy8 : (row : ℚ) * (cityBlockHeight + STREET_WIDTH) ≤ 8 * (9830 / 8) := by
        rw [hBHSW]
        exact mul_le_mul_of_nonneg_right hr8 (by norm_num)
      refine ⟨by norm_num, ?_, hy0, ?_, ?_, ?_⟩
      · show (0 : ℚ) + MAP_WIDTH ≤ MAP_WIDTH
        norm_num
      · show (row : ℚ) * (cityBlockHeight + STREET_WIDTH) + STREET_WIDTH ≤ MAP_HEIGHT
        have hSW : STREET_WIDTH = (170 : ℚ) := rfl
        have hMH : MAP_HEIGHT = (10000 : ℚ) := rfl
        linarith
      · norm_num [MAP_WIDTH]
      · norm_num [STREET_WIDTH]

theorem spawnGrassRelaxed_mem (buildings : List Rect) (rnd : ℕ → ℚ)
    (hrnd : ∀ n, 0 ≤ rnd n ∧ rnd n < 1) :
    ∀ fuel k, inBoundsFor GRASS_RADIUS (spawnGrassRelaxed buildings rnd fuel k).1.x
      (spawnGrassRelaxed buildings rnd fuel k).1.y := by
  intro fuel
  induction fuel with
  | zero =>
    intro k
    unfold spawnGrassRelaxed
    norm_num [inBoundsFor, GRASS_RADIUS, MAP_WIDTH, MAP_HEIGHT]
  | succ n ih =>
    intro k
    unfold spawnGrassRelaxed
    have hx := randomBetween_mem rnd k GRASS_RADIUS (MAP_WIDTH - GRASS_RADIUS)
      (hrnd k).1 (hrnd k).2 (by norm_num [GRASS_RADIUS, MAP_WIDTH])
      ⟨9972, by norm_num [GRASS_RADIUS, MAP_WIDTH]⟩
    have hy := randomBetween_mem rnd (randomBetween rnd k GRASS_RADIUS (MAP_WIDTH - GRASS_RADIUS)).2
      GRASS_RADIUS (MAP_HEIGHT - GRASS_RADIUS)
      (hrnd _).1 (hrnd _).2 (by norm_num [GRASS_RADIUS, MAP_HEIGHT])
      ⟨9972, by norm_num [GRASS_RADIUS, MAP_HEIGHT]⟩
    by_cases h : isCircleBlockedByBuildings buildings
        (randomBetween rnd k GRASS_RADIUS (MAP_WIDTH - GRASS_RADIUS)).1
        (randomBetween rnd (randomBetween rnd k GRASS_RADIUS (MAP_WIDTH - GRASS_RADIUS)).2
          GRASS_RADIUS (MAP_HEIGHT - GRASS_RADIUS)).1 GRASS_RADIUS = true
    · simp only [h, Bool.not_true, Bool.false_eq_true, if_false]
      exact ih _
    · rw [Bool.not_eq_true] at h
      simp only [h, Bool.not_false, if_true]
      exact ⟨hx.1, hx.2, hy.1, hy.2⟩

theorem getD_mem_or_default {α : Type} (l : List α) (i : ℕ) (d : α) :
    l.getD i d ∈ l ∨ l.getD i d = d := by
  by_cases h : i < l.length
  · left
    rw [List.getD_eq_getElem l d h]
    exact List.getElem_mem h
  · right
    unfold List.getD
    rw [List.get?_eq_none.mpr (by omega)]
    rfl

/-- The street rectangle picked by index (or the out-of-range default) is
inside the map. -/
theorem street_box (layout : CityLayout) (hst : streetsWithinMap layout) (i : ℕ) :
    0 ≤ (layout.streets.getD i ⟨"", 0, 0, 0, 0⟩).x ∧
      (layout.streets.getD i ⟨"", 0, 0, 0, 0⟩).x +
        (layout.streets.getD i ⟨"", 0, 0, 0, 0⟩).width ≤ MAP_WIDTH ∧
      0 ≤ (layout.streets.getD i ⟨"", 0, 0, 0, 0⟩).y ∧
      (layout.streets.getD i ⟨"", 0, 0, 0, 0⟩).y +
        (layout.streets.getD i ⟨"", 0, 0, 0, 0⟩).height ≤ MAP_HEIGHT := by
  rcases getD_mem_or_default layout.streets i ⟨"", 0, 0, 0, 0⟩ with h | h
  · obtain ⟨h1, h2, h3, h4, _, _⟩ := hst.2 _ h
    exact ⟨h1, h2, h3, h4⟩
  · rw [h]
    norm_num [MAP_WIDTH, MAP_HEIGHT]

theorem toIdx_randomBetween_lt (rnd : ℕ → ℚ) (hrnd : ∀ n, 0 ≤ rnd n ∧ rnd n < 1)
    (k : ℕ) (n : ℕ) (hn : 0 < n) :
    toIdx (randomBetween rnd k 0 ((n : ℚ) - 1)).1 < n := by
  have hn1 : (0 : ℚ) ≤ (n : ℚ) - 1 := by
    have : (1 : ℚ) ≤ (n : ℚ) := by exact_mod_cast hn
    linarith
  have h := randomBetween_mem rnd k 0 ((n : ℚ) - 1) (hrnd k).1 (hrnd k).2 hn1
    ⟨(n : ℤ) - 1, by push_cast; ring⟩
  unfold toIdx
  have hfl : ⌊(randomBetween rnd k 0 ((n : ℚ) - 1)).1⌋ ≤ (n : ℤ) - 1 := by
    have h1 : ⌊(randomBetween rnd k 0 ((n : ℚ) - 1)).1⌋ ≤ ⌊(n : ℚ) - 1⌋ :=
      Int.floor_le_floor h.2
    have h2 : ⌊(n : ℚ) - 1⌋ = (n : ℤ) - 1 := by
      have : ((n : ℚ) - 1) = (((n : ℤ) - 1 : ℤ) : ℚ) := by push_cast; ring
      rw [this, Int.floor_intCast]
    omega
  omega

theorem spawnGrassTry_mem (buildings : List Rect) (playersL : List ServerPlayer)
    (powerupsL : List Powerup) (enemiesL : List EnemySpot) (existing : List Grass)
    (skipIndex : Option ℕ) (rnd : ℕ → ℚ) (hrnd : ∀ n, 0 ≤ rnd n ∧ rnd n < 1) :
    ∀ fuel k,
      inBoundsFor GRASS_RADIUS
        (spawnGrassTry buildings playersL powerupsL enemiesL existing skipIndex rnd fuel k).1.x
        (spawnGrassTry buildings playersL powerupsL enemiesL existing skipIndex rnd fuel k).1.y := by
  intro fuel
  induction fuel with
  | zero =>
    intro k
    unfold spawnGrassTry
    exact spawnGrassRelaxed_mem buildings rnd hrnd 32 k
  | succ n ih =>
    intro k
    unfold spawnGrassTry
    have hx := randomBetween_mem rnd k GRASS_RADIUS (MAP_WIDTH - GRASS_RADIUS)
      (hrnd k).1 (hrnd k).2 (by norm_num [GRASS_RADIUS, MAP_WIDTH])
      ⟨9972, by norm_num [GRASS_RADIUS, MAP_WIDTH]⟩
    have hy := randomBetween_mem rnd (randomBetween rnd k GRASS_RADIUS (MAP_WIDTH - GRASS_RADIUS)).2
      GRASS_RADIUS (MAP_HEIGHT - GRASS_RADIUS)
      (hrnd _).1 (hrnd _).2 (by norm_num [GRASS_RADIUS, MAP_HEIGHT])
      ⟨9972, by norm_num [GRASS_RADIUS, MAP_HEIGHT]⟩
    by_cases h : grassCandidateOk buildings playersL powerupsL enemiesL existing skipIndex
        (randomBetween rnd k GRASS_RADIUS (MAP_WIDTH - GRASS_RADIUS)).1
        (randomBetween rnd (randomBetween rnd k GRASS_RADIUS (MAP_WIDTH - GRASS_RADIUS)).2
          GRASS_RADIUS (MAP_HEIGHT - GRASS_RADIUS)).1 = true
    · simp only [h, if_true]
      exact ⟨hx.1, hx.2, hy.1, hy.2⟩
    · rw [Bool.not_eq_true] at h
      simp only [h, Bool.false_eq_true, if_false]
      exact ih _

theorem spawnGrass_mem (buildings : List Rect) (playersL : List ServerPlayer)
    (powerupsL : List Powerup) (enemiesL : List EnemySpot) (existing : List Grass)
    (skipIndex : Option ℕ) (rnd : ℕ → ℚ) (hrnd : ∀ n, 0 ≤ rnd n ∧ rnd n < 1) (k : ℕ) :
    inBoundsFor GRASS_RADIUS
      (spawnGrass buildings playersL powerupsL enemiesL existing skipIndex rnd k).1.x
      (spawnGrass buildings playersL powerupsL enemiesL existing skipIndex rnd k).1.y :=
  spawnGrassTry_mem buildings playersL powerupsL enemiesL existing skipIndex rnd hrnd 32 k

theorem spawnPowerupRelaxed_mem (buildings : List Rect) (rnd : ℕ → ℚ)
    (uuid : ℕ → String) (hrnd : ∀ n, 0 ≤ rnd n ∧ rnd n < 1) :
    ∀ fuel k, inBoundsFor POWERUP_RADIUS
      (spawnPowerupRelaxed buildings rnd uuid fuel k).1.x
      (spawnPowerupRelaxed buildings rnd uuid fuel k).1.y := by
  intro fuel
  induction fuel with
  | zero =>
    intro k
    unfold spawnPowerupRelaxed
    norm_num [inBoundsFor, POWERUP_RADIUS, MAP_WIDTH, MAP_HEIGHT]
  | succ n ih =>
    intro k
    unfold spawnPowerupRelaxed
    have hx := randomBetween_mem rnd k POWERUP_RADIUS (MAP_WIDTH - POWERUP_RADIUS)
      (hrnd k).1 (hrnd k).2 (by norm_num [POWERUP_RADIUS, MAP_WIDTH])
      ⟨9968, by norm_num [POWERUP_RADIUS, MAP_WIDTH]⟩
    have hy := randomBetween_mem rnd
      (randomBetween rnd k POWERUP_RADIUS (MAP_WIDTH - POWERUP_RADIUS)).2
      POWERUP_RADIUS (MAP_HEIGHT - POWERUP_RADIUS)
      (hrnd _).1 (hrnd _).2 (by norm_num [POWERUP_RADIUS, MAP_HEIGHT])
      ⟨9968, by norm_num [POWERUP_RADIUS, MAP_HEIGHT]⟩
    by_cases h : isCircleBlockedByBuildings buildings
        (randomBetween rnd k POWERUP_RADIUS (MAP_WIDTH - POWERUP_RADIUS)).1
        (randomBetween rnd (randomBetween rnd k POWERUP_RADIUS (MAP_WIDTH - POWERUP_RADIUS)).2
          POWERUP_RADIUS (MAP_HEIGHT - POWERUP_RADIUS)).1 POWERUP_RADIUS = true
    · simp only [h, Bool.not_true, Bool.false_eq_true, if_false]
      exact ih _
    · rw [Bool.not_eq_true] at h
      simp only [h, Bool.not_false, if_true]
      exact ⟨hx.1, hx.2, hy.1, hy.2⟩

theorem spawnPowerupTry_mem (buildings : List Rect) (playersL : List ServerPlayer)
    (grassesL : List Grass) (enemiesL : List EnemySpot) (existing : List Powerup)
    (skipIndex : Option ℕ) (rnd : ℕ → ℚ) (uuid : ℕ → String)
    (hrnd : ∀ n, 0 ≤ rnd n ∧ rnd n < 1) :
    ∀ fuel k, inBoundsFor POWERUP_RADIUS
      (spawnPowerupTry buildings playersL grassesL enemiesL existing skipIndex rnd uuid fuel k).1.x
      (spawnPowerupTry buildings playersL grassesL enemiesL existing skipIndex rnd uuid fuel k).1.y := by
  intro fuel
  induction fuel with
  | zero =>
    intro k
    unfold spawnPowerupTry
    exact spawnPowerupRelaxed_mem buildings rnd uuid hrnd 32 k
  | succ n ih =>
    intro k
    unfold spawnPowerupTry
    have hx := randomBetween_mem rnd k POWERUP_RADIUS (MAP_WIDTH - POWERUP_RADIUS)
      (hrnd k).1 (hrnd k).2 (by norm_num [POWERUP_RADIUS, MAP_WIDTH])
      ⟨9968, by norm_num [POWERUP_RADIUS, MAP_WIDTH]⟩
    have hy := randomBetween_mem rnd
      (randomBetween rnd k POWERUP_RADIUS (MAP_WIDTH - POWERUP_RADIUS)).2
      POWERUP_RADIUS (MAP_HEIGHT - POWERUP_RADIUS)
      (hrnd _).1 (hrnd _).2 (by norm_num [POWERUP_RADIUS, MAP_HEIGHT])
      ⟨9968, by norm_num [POWERUP_RADIUS, MAP_HEIGHT]⟩
    by_cases h : powerupCandidateOk buildings playersL grassesL enemiesL existing skipIndex
        (randomBetween rnd k POWERUP_RADIUS (MAP_WIDTH - POWERUP_RADIUS)).1
        (randomBetween rnd (randomBetween rnd k POWERUP_RADIUS (MAP_WIDTH - POWERUP_RADIUS)).2
          POWERUP_RADIUS (MAP_HEIGHT - POWERUP_RADIUS)).1 = true
    · simp only [h, if_true]
      exact ⟨hx.1, hx.2, hy.1, hy.2⟩
    · rw [Bool.not_eq_true] at h
      simp only [h, Bool.false_eq_true, if_false]
      exact ih _

theorem spawnPowerup_mem (buildings : List Rect) (playersL : List ServerPlayer)
    (grassesL : List Grass) (enemiesL : List EnemySpot) (existing : List Powerup)
    (skipIndex : Option ℕ) (rnd : ℕ → ℚ) (uuid : ℕ → String)
    (hrnd : ∀ n, 0 ≤ rnd n ∧ rnd n < 1) (k : ℕ) :
    inBoundsFor POWERUP_RADIUS
      (spawnPowerup buildings playersL grassesL enemiesL existing skipIndex rnd uuid k).1.x
      (spawnPowerup buildings playersL grassesL enemiesL existing skipIndex rnd uuid k).1.y :=
  spawnPowerupTry_mem buildings playersL grassesL enemiesL existing skipIndex rnd uuid hrnd 32 k

theorem spawnPlayerStreets_ok (layout : CityLayout) (rnd : ℕ → ℚ)
    (hst : streetsWithinMap layout) (hfar : buildingsFar layout.buildings)
    (hrnd : ∀ n, 0 ≤ rnd n ∧ rnd n < 1) :
    ∀ fuel k,
      inBoundsFor PLAYER_RADIUS (spawnPlayerStreets layout rnd fuel k).1.1
        (spawnPlayerStreets layout rnd fuel k).1.2 ∧
      isCircleBlockedByBuildings layout.buildings (spawnPlayerStreets layout rnd fuel k).1.1
        (spawnPlayerStreets layout rnd fuel k).1.2 PLAYER_RADIUS = false := by
  intro fuel
  induction fuel with
  | zero =>
    intro k
    unfold spawnPlayerStreets
    constructor
    · norm_num [inBoundsFor, PLAYER_RADIUS, MAP_WIDTH, MAP_HEIGHT]
    · exact far_corner_not_blocked layout.buildings hfar PLAYER_RADIUS PLAYER_RADIUS
        PLAYER_RADIUS (by norm_num [PLAYER_RADIUS]) (by norm_num [PLAYER_RADIUS])
        (by norm_num [PLAYER_RADIUS])
  | succ n ih =>
    intro k
    simp only [spawnPlayerStreets]
    split
    · exact ih _
    · rename_i hguard
      push_neg at hguard
      obtain ⟨hgx, hgy⟩ := hguard
      obtain ⟨hsx0, hsxw, hsy0, hsyh⟩ := street_box layout hst
        (toIdx (randomBetween rnd k 0 ((layout.streets.length : ℚ) - 1)).1)
      set street := layout.streets.getD
        (toIdx (randomBetween rnd k 0 ((layout.streets.length : ℚ) - 1)).1) ⟨"", 0, 0, 0, 0⟩
        with hstreet
      have hPR : PLAYER_RADIUS = (16 : ℚ) := rfl
      have hMW : MAP_WIDTH = (10000 : ℚ) := rfl
      have hMH : MAP_HEIGHT = (10000 : ℚ) := rfl
      have hx := randomBetween_mem rnd
        (randomBetween rnd k 0 ((layout.streets.length : ℚ) - 1)).2
        ((⌈street.x + PLAYER_RADIUS⌉ : ℤ) : ℚ) ((⌊street.x + street.width - PLAYER_RADIUS⌋ : ℤ) : ℚ)
        (hrnd _).1 (hrnd _).2 hgx
        ⟨⌊street.x + street.width - PLAYER_RADIUS⌋ - ⌈street.x + PLAYER_RADIUS⌉, by push_cast; ring⟩
      have hy := randomBetween_mem rnd
        (randomBetween rnd (randomBetween rnd k 0 ((layout.streets.length : ℚ) - 1)).2
          ((⌈street.x + PLAYER_RADIUS⌉ : ℤ) : ℚ)
          ((⌊street.x + street.width - PLAYER_RADIUS⌋ : ℤ) : ℚ)).2
        ((⌈street.y + PLAYER_RADIUS⌉ : ℤ) : ℚ) ((⌊street.y + street.height - PLAYER_RADIUS⌋ : ℤ) : ℚ)
        (hrnd _).1 (hrnd _).2 hgy
        ⟨⌊street.y + street.height - PLAYER_RADIUS⌋ - ⌈street.y + PLAYER_RADIUS⌉, by push_cast; ring⟩
      have hlox : PLAYER_RADIUS ≤ ((⌈street.x + PLAYER_RADIUS⌉ : ℤ) : ℚ) :=
        le_trans (by linarith) (Int.le_ceil (street.x + PLAYER_RADIUS))
      have hhix : ((⌊street.x + street.width - PLAYER_RADIUS⌋ : ℤ) : ℚ) ≤ MAP_WIDTH - PLAYER_RADIUS :=
        le_trans (Int.floor_le (street.x + street.width - PLAYER_RADIUS)) (by linarith)
      have hloy : PLAYER_RADIUS ≤ ((⌈street.y + PLAYER_RADIUS⌉ : ℤ) : ℚ) :=
        le_trans (by linarith) (Int.le_ceil (street.y + PLAYER_RADIUS))
      have hhiy : ((⌊street.y + street.height - PLAYER_RADIUS⌋ : ℤ) : ℚ) ≤ MAP_HEIGHT - PLAYER_RADIUS :=
        le_trans (Int.floor_le (street.y + street.height - PLAYER_RADIUS)) (by linarith)
      split
      · rename_i hnb
        rw [Bool.not_eq_true'] at hnb
        refine ⟨⟨le_trans hlox hx.1, le_trans hx.2 hhix,
          le_trans hloy hy.1, le_trans hy.2 hhiy⟩, hnb⟩
      · exact ih _

theorem spawnPlayerPositionTry_ok (layout : CityLayout) (enemiesL : List EnemySpot)
    (rnd : ℕ → ℚ) (hst : streetsWithinMap layout) (hfar : buildingsFar layout.buildings)
    (hrnd : ∀ n, 0 ≤ rnd n ∧ rnd n < 1) :
    ∀ fuel k,
      inBoundsFor PLAYER_RADIUS (spawnPlayerPositionTry layout enemiesL rnd fuel k).1.1
        (spawnPlayerPositionTry layout enemiesL rnd fuel k).1.2 ∧
      isCircleBlockedByBuildings layout.buildings
        (spawnPlayerPositionTry layout enemiesL rnd fuel k).1.1
        (spawnPlayerPositionTry layout enemiesL rnd fuel k).1.2 PLAYER_RADIUS = false := by
  intro fuel
  induction fuel with
  | zero =>
    intro k
    unfold spawnPlayerPositionTry
    exact spawnPlayerStreets_ok layout rnd hst hfar hrnd 64 k
  | succ n ih =>
    intro k
    simp only [spawnPlayerPositionTry]
    have hx := randomBetween_mem rnd k PLAYER_RADIUS (MAP_WIDTH - PLAYER_RADIUS)
      (hrnd k).1 (hrnd k).2 (by norm_num [PLAYER_RADIUS, MAP_WIDTH])
      ⟨9968, by norm_num [PLAYER_RADIUS, MAP_WIDTH]⟩
    have hy := randomBetween_mem rnd
      (randomBetween rnd k PLAYER_RADIUS (MAP_WIDTH - PLAYER_RADIUS)).2
      PLAYER_RADIUS (MAP_HEIGHT - PLAYER_RADIUS)
      (hrnd _).1 (hrnd _).2 (by norm_num [PLAYER_RADIUS, MAP_HEIGHT])
      ⟨9968, by norm_num [PLAYER_RADIUS, MAP_HEIGHT]⟩
    split
    · rename_i hok
      rw [Bool.and_eq_true, Bool.not_eq_true', Bool.not_eq_true'] at hok
      exact ⟨⟨hx.1, hx.2, hy.1, hy.2⟩, hok.2⟩
    · exact ih _

theorem spawnPlayerPosition_ok (layout : CityLayout) (enemiesL : List EnemySpot)
    (rnd : ℕ → ℚ) (hst : streetsWithinMap layout) (hfar : buildingsFar layout.buildings)
    (hrnd : ∀ n, 0 ≤ rnd n ∧ rnd n < 1) (k : ℕ) :
    inBoundsFor PLAYER_RADIUS (spawnPlayerPosition layout enemiesL rnd k).1.1
      (spawnPlayerPosition layout enemiesL rnd k).1.2 ∧
    isCircleBlockedByBuildings layout.buildings
      (spawnPlayerPosition layout enemiesL rnd k).1.1
      (spawnPlayerPosition layout enemiesL rnd k).1.2 PLAYER_RADIUS = false :=
  spawnPlayerPositionTry_ok layout enemiesL rnd hst hfar hrnd 32 k

theorem tryOrder_coords (buildings : List Rect) (cx cy btx bty r : ℚ) (o : Bool) :
    ((tryOrder buildings cx cy btx bty r o).x = cx ∨ (tryOrder buildings cx cy btx bty r o).x = btx) ∧
    ((tryOrder buildings cx cy btx bty r o).y = cy ∨ (tryOrder buildings cx cy btx bty r o).y = bty) := by
  cases o <;> simp only [tryOrder, if_true, Bool.false_eq_true, if_false] <;>
    constructor <;> split <;> try (split)
  all_goals simp

theorem resolveBlockedMovement_mem (buildings : List Rect) (r cx cy tx ty : ℚ)
    (hr : r ≤ MAP_WIDTH - r) (hr2 : r ≤ MAP_HEIGHT - r) (hin : inBoundsFor r cx cy) :
    inBoundsFor r (resolveBlockedMovement buildings cx cy tx ty r).x
      (resolveBlockedMovement buildings cx cy tx ty r).y := by
  obtain ⟨hcx1, hcx2, hcy1, hcy2⟩ := hin
  have hbtx := clamp_mem tx r (MAP_WIDTH - r) hr
  have hbty := clamp_mem ty r (MAP_HEIGHT - r) hr2
  simp only [resolveBlockedMovement]
  split
  · obtain ⟨hx, hy⟩ := tryOrder_coords buildings cx cy (clamp tx r (MAP_WIDTH - r))
      (clamp ty r (MAP_HEIGHT - r)) r true
    refine ⟨?_, ?_, ?_, ?_⟩
    · rcases hx with h | h <;> rw [h] <;> [exact hcx1; exact hbtx.1]
    · rcases hx with h | h <;> rw [h] <;> [exact hcx2; exact hbtx.2]
    · rcases hy with h | h <;> rw [h] <;> [exact hcy1; exact hbty.1]
    · rcases hy with h | h <;> rw [h] <;> [exact hcy2; exact hbty.2]
  · obtain ⟨hx, hy⟩ := tryOrder_coords buildings cx cy (clamp tx r (MAP_WIDTH - r))
      (clamp ty r (MAP_HEIGHT - r)) r false
    refine ⟨?_, ?_, ?_, ?_⟩
    · rcases hx with h | h <;> rw [h] <;> [exact hcx1; exact hbtx.1]
    · rcases hx with h | h <;> rw [h] <;> [exact hcx2; exact hbtx.2]
    · rcases hy with h | h <;> rw [h] <;> [exact hcy1; exact hbty.1]
    · rcases hy with h | h <;> rw [h] <;> [exact hcy2; exact hbty.2]

theorem closestStreetStep_fold_mem (homeX homeY : ℚ) (l : List Rect)
    (hl : ∀ s ∈ l, 0 ≤ s.x ∧ s.x + s.width ≤ MAP_WIDTH ∧ 0 ≤ s.y ∧ s.y + s.height ≤ MAP_HEIGHT) :
    ∀ acc : (ℚ × ℚ) × Option ℚ,
      inBoundsFor ENEMY_RADIUS acc.1.1 acc.1.2 →
      inBoundsFor ENEMY_RADIUS (l.foldl (closestStreetPointStep homeX homeY) acc).1.1
        (l.foldl (closestStreetPointStep homeX homeY) acc).1.2 := by
  induction l with
  | nil => intro acc hacc; exact hacc
  | cons s tl ih =>
    intro acc hacc
    rw [List.foldl_cons]
    apply ih (fun t ht => hl t (List.mem_cons_of_mem s ht))
    obtain ⟨hsx0, hsxw, hsy0, hsyh⟩ := hl s (List.mem_cons_self s tl)
    simp only [closestStreetPointStep]
    split
    · exact hacc
    · rename_i hguard
      push_neg at hguard
      have hER : ENEMY_RADIUS = (20 : ℚ) := rfl
      have hMW : MAP_WIDTH = (10000 : ℚ) := rfl
      have hMH : MAP_HEIGHT = (10000 : ℚ) := rfl
      have hup1 : clamp homeX (s.x + ENEMY_RADIUS) (s.x + s.width - ENEMY_RADIUS) ≤
          MAP_WIDTH - ENEMY_RADIUS :=
        le_trans (clamp_le_right _ _ _) (by linarith)
      have hup2 : clamp homeY (s.y + ENEMY_RADIUS) (s.y + s.height - ENEMY_RADIUS) ≤
          MAP_HEIGHT - ENEMY_RADIUS :=
        le_trans (clamp_le_right _ _ _) (by linarith)
      split
      · exact ⟨hguard.1, hup1, hguard.2, hup2⟩
      · split
        · exact ⟨hguard.1, hup1, hguard.2, hup2⟩
        · exact hacc

theorem getEnemyHome_mem (layout : CityLayout) (rnd : ℕ → ℚ) (hst : streetsWithinMap layout)
    (index k : ℕ) :
    inBoundsFor ENEMY_RADIUS (getEnemyHome layout rnd index k).1.homeX
      (getEnemyHome layout rnd index k).1.homeY := by
  have hER : ENEMY_RADIUS ≤ MAP_WIDTH - ENEMY_RADIUS := by norm_num [ENEMY_RADIUS, MAP_WIDTH]
  have hER2 : ENEMY_RADIUS ≤ MAP_HEIGHT - ENEMY_RADIUS := by norm_num [ENEMY_RADIUS, MAP_HEIGHT]
  simp only [getEnemyHome]
  split
  · exact resolveBlockedMovement_mem _ _ _ _ _ _ hER hER2
      ⟨(clamp_mem _ _ _ hER).1, (clamp_mem _ _ _ hER).2,
        (clamp_mem _ _ _ hER2).1, (clamp_mem _ _ _ hER2).2⟩
  · exact closestStreetStep_fold_mem _ _ layout.streets
      (fun s hs => ⟨(hst.2 s hs).1, (hst.2 s hs).2.1, (hst.2 s hs).2.2.1, (hst.2 s hs).2.2.2.1⟩) _
      ⟨(clamp_mem _ _ _ hER).1, (clamp_mem _ _ _ hER).2,
        (clamp_mem _ _ _ hER2).1, (clamp_mem _ _ _ hER2).2⟩

theorem ceil_cast_le_floor_cast (a b : ℚ) (h : a + 1 ≤ b) :
    ((⌈a⌉ : ℤ) : ℚ) ≤ ((⌊b⌋ : ℤ) : ℚ) := by
  have h1 : ((⌈a⌉ : ℤ) : ℚ) < a + 1 := Int.ceil_lt_add_one a
  have h2 : ((⌈a⌉ : ℤ) : ℚ) ≤ b := le_of_lt (lt_of_lt_of_le h1 h)
  exact_mod_cast Int.le_floor.mpr h2

theorem getD_mem_of_lt {α : Type} (l : List α) (i : ℕ) (d : α) (h : i < l.length) :
    l.getD i d ∈ l := by
  rw [List.getD_eq_getElem l d h]
  exact List.getElem_mem h

theorem spawnEnemyStreets_mem (layout : CityLayout) (existing : List EnemySpot)
    (home : EnemyHome) (rnd : ℕ → ℚ) (uuid : ℕ → String)
    (hst : streetsWithinMap layout) (hrnd : ∀ n, 0 ≤ rnd n ∧ rnd n < 1)
    (hhome : inBoundsFor ENEMY_RADIUS home.homeX home.homeY) :
    ∀ fuel k,
      inBoundsFor ENEMY_RADIUS (spawnEnemyStreets layout existing home rnd uuid fuel k).1.x
        (spawnEnemyStreets layout existing home rnd uuid fuel k).1.y := by
  intro fuel
  induction fuel with
  | zero =>
    intro k
    exact hhome
  | succ n ih =>
    intro k
    simp only [spawnEnemyStreets]
    have hlen : 0 < layout.streets.length := List.length_pos.mpr hst.1
    have hidx := toIdx_randomBetween_lt rnd hrnd k layout.streets.length hlen
    have hsmem := getD_mem_of_lt layout.streets
      (toIdx (randomBetween rnd k 0 ((layout.streets.length : ℚ) - 1)).1) ⟨"", 0, 0, 0, 0⟩ hidx
    obtain ⟨hsx0, hsxw, hsy0, hsyh, hsw41, hsh41⟩ := hst.2 _ hsmem
    set street := layout.streets.getD
      (toIdx (randomBetween rnd k 0 ((layout.streets.length : ℚ) - 1)).1) ⟨"", 0, 0, 0, 0⟩
      with hstreetdef
    have hER : ENEMY_RADIUS = (20 : ℚ) := rfl
    have hMW : MAP_WIDTH = (10000 : ℚ) := rfl
    have hMH : MAP_HEIGHT = (10000 : ℚ) := rfl
    have hgx : ((⌈street.x + ENEMY_RADIUS⌉ : ℤ) : ℚ) ≤
        ((⌊street.x + street.width - ENEMY_RADIUS⌋ : ℤ) : ℚ) :=
      ceil_cast_le_floor_cast _ _ (by linarith)
    have hgy : ((⌈street.y + ENEMY_RADIUS⌉ : ℤ) : ℚ) ≤
        ((⌊street.y + street.height - ENEMY_RADIUS⌋ : ℤ) : ℚ) :=
      ceil_cast_le_floor_cast _ _ (by linarith)
    have hx := randomBetween_mem rnd
      (randomBetween rnd k 0 ((layout.streets.length : ℚ) - 1)).2
      ((⌈street.x + ENEMY_RADIUS⌉ : ℤ) : ℚ) ((⌊street.x + street.width - ENEMY_RADIUS⌋ : ℤ) : ℚ)
      (hrnd _).1 (hrnd _).2 hgx
      ⟨⌊street.x + street.width - ENEMY_RADIUS⌋ - ⌈street.x + ENEMY_RADIUS⌉, by push_cast; ring⟩
    have hy := randomBetween_mem rnd
      (randomBetween rnd (randomBetween rnd k 0 ((layout.streets.length : ℚ) - 1)).2
        ((⌈street.x + ENEMY_RADIUS⌉ : ℤ) : ℚ)
        ((⌊street.x + street.width - ENEMY_RADIUS⌋ : ℤ) : ℚ)).2
      ((⌈street.y + ENEMY_RADIUS⌉ : ℤ) : ℚ) ((⌊street.y + street.height - ENEMY_RADIUS⌋ : ℤ) : ℚ)
      (hrnd _).1 (hrnd _).2 hgy
      ⟨⌊street.y + street.height - ENEMY_RADIUS⌋ - ⌈street.y + ENEMY_RADIUS⌉, by push_cast; ring⟩
    have hlox : ENEMY_RADIUS ≤ ((⌈street.x + ENEMY_RADIUS⌉ : ℤ) : ℚ) :=
      le_trans (by linarith) (Int.le_ceil (street.x + ENEMY_RADIUS))
    have hhix : ((⌊street.x + street.width - ENEMY_RADIUS⌋ : ℤ) : ℚ) ≤ MAP_WIDTH - ENEMY_RADIUS :=
      le_trans (Int.floor_le (street.x + street.width - ENEMY_RADIUS)) (by linarith)
    have hloy : ENEMY_RADIUS ≤ ((⌈street.y + ENEMY_RADIUS⌉ : ℤ) : ℚ) :=
      le_trans (by linarith) (Int.le_ceil (street.y + ENEMY_RADIUS))
    have hhiy : ((⌊street.y + street.height - ENEMY_RADIUS⌋ : ℤ) : ℚ) ≤ MAP_HEIGHT - ENEMY_RADIUS :=
      le_trans (Int.floor_le (street.y + street.height - ENEMY_RADIUS)) (by linarith)
    split
    · exact ⟨le_trans hlox hx.1, le_trans hx.2 hhix, le_trans hloy hy.1, le_trans hy.2 hhiy⟩
    · exact ih _

theorem spawnEnemyNearHome_mem (layout : CityLayout) (existing : List EnemySpot)
    (home : EnemyHome) (rnd : ℕ → ℚ) (cosO sinO : ℕ → ℚ) (uuid : ℕ → String)
    (hst : streetsWithinMap layout) (hrnd : ∀ n, 0 ≤ rnd n ∧ rnd n < 1)
    (hhome : inBoundsFor ENEMY_RADIUS home.homeX home.homeY) :
    ∀ fuel j k,
      inBoundsFor ENEMY_RADIUS
        (spawnEnemyNearHome layout existing home rnd cosO sinO uuid j fuel k).1.x
        (spawnEnemyNearHome layout existing home rnd cosO sinO uuid j fuel k).1.y := by
  intro fuel
  induction fuel with
  | zero =>
    intro j k
    exact spawnEnemyStreets_mem layout existing home rnd uuid hst hrnd hhome 32 k
  | succ n ih =>
    intro j k
    have hER : ENEMY_RADIUS ≤ MAP_WIDTH - ENEMY_RADIUS := by norm_num [ENEMY_RADIUS, MAP_WIDTH]
    have hER2 : ENEMY_RADIUS ≤ MAP_HEIGHT - ENEMY_RADIUS := by norm_num [ENEMY_RADIUS, MAP_HEIGHT]
    simp only [spawnEnemyNearHome]
    generalize (if j = 0 then ((0 : ℚ), k)
      else randomBetween rnd k 0 ((⌊home.territoryRadius * (4 / 10)⌋ : ℤ) : ℚ)) = sd
    by_cases h : (!enemySpacingHit existing
        (clamp (jsRound (home.homeX + cosO j * sd.1)) ENEMY_RADIUS (MAP_WIDTH - ENEMY_RADIUS))
        (clamp (jsRound (home.homeY + sinO j * sd.1)) ENEMY_RADIUS (MAP_HEIGHT - ENEMY_RADIUS)) &&
      !isCircleBlockedByBuildings layout.buildings
        (clamp (jsRound (home.homeX + cosO j * sd.1)) ENEMY_RADIUS (MAP_WIDTH - ENEMY_RADIUS))
        (clamp (jsRound (home.homeY + sinO j * sd.1)) ENEMY_RADIUS (MAP_HEIGHT - ENEMY_RADIUS))
        ENEMY_RADIUS) = true
    · rw [if_pos h]
      exact ⟨(clamp_mem _ _ _ hER).1, (clamp_mem _ _ _ hER).2,
        (clamp_mem _ _ _ hER2).1, (clamp_mem _ _ _ hER2).2⟩
    · rw [if_neg h]
      exact ih _ _

theorem spawnEnemy_mem (layout : CityLayout) (existing : List EnemySpot) (enemyIndex : ℕ)
    (rnd : ℕ → ℚ) (cosO sinO : ℕ → ℚ) (uuid : ℕ → String)
    (hst : streetsWithinMap layout) (hrnd : ∀ n, 0 ≤ rnd n ∧ rnd n < 1) (k : ℕ) :
    inBoundsFor ENEMY_RADIUS
      (spawnEnemy layout existing enemyIndex rnd cosO sinO uuid k).1.x
      (spawnEnemy layout existing enemyIndex rnd cosO sinO uuid k).1.y := by
  unfold spawnEnemy
  exact spawnEnemyNearHome_mem layout existing _ rnd cosO sinO uuid hst hrnd
    (getEnemyHome_mem layout rnd hst enemyIndex k) 16 0 _

/-- C9: each placement routine is a total function built from bounded retry
loops (primary budget, relaxed or street-sampling fallback, fixed last
resort) — termination is structural — and, for every state of the other
entity pools, every randomness stream (`Math.random` values in `[0,1)`),
every `cos`/`sin` oracle and every seeded layout, the returned position is
within `[radius, bound - radius]` on both axes for the routine's own
radius. -/
theorem spawn_termination_bounds_spec :
    ∀ (su : ℤ → ℚ) (rnd : ℕ → ℚ), (∀ s, 0 ≤ su s ∧ su s < 1) →
      (∀ n, 0 ≤ rnd n ∧ rnd n < 1) →
    (∀ playersL powerupsL enemiesL existing skipIndex k,
      inBoundsFor GRASS_RADIUS
        (spawnGrass (createCityLayout su).buildings playersL powerupsL enemiesL existing
          skipIndex rnd k).1.x
        (spawnGrass (createCityLayout su).buildings playersL powerupsL enemiesL existing
          skipIndex rnd k).1.y) ∧
    (∀ playersL grassesL enemiesL existing skipIndex uuid k,
      inBoundsFor POWERUP_RADIUS
        (spawnPowerup (createCityLayout su).buildings playersL grassesL enemiesL existing
          skipIndex rnd uuid k).1.x
        (spawnPowerup (createCityLayout su).buildings playersL grassesL enemiesL existing
          skipIndex rnd uuid k).1.y) ∧
    (∀ existing enemyIndex cosO sinO uuid k,
      inBoundsFor ENEMY_RADIUS
        (spawnEnemy (createCityLayout su) existing enemyIndex rnd cosO sinO uuid k).1.x
        (spawnEnemy (createCityLayout su) existing enemyIndex rnd cosO sinO uuid k).1.y) ∧
    (∀ enemiesL k,
      inBoundsFor PLAYER_RADIUS
        (spawnPlayerPosition (createCityLayout su) enemiesL rnd k).1.1
        (spawnPlayerPosition (createCityLayout su) enemiesL rnd k).1.2) := by
  intro su rnd hsu hrnd
  have hst := streetsWithinMap_createCityLayout su
  refine ⟨?_, ?_, ?_, ?_⟩
  · intro playersL powerupsL enemiesL existing skipIndex k
    exact spawnGrass_mem _ playersL powerupsL enemiesL existing skipIndex rnd hrnd k
  · intro playersL grassesL enemiesL existing skipIndex uuid k
    exact spawnPowerup_mem _ playersL grassesL enemiesL existing skipIndex rnd uuid hrnd k
  · intro existing enemyIndex cosO sinO uuid k
    exact spawnEnemy_mem _ existing enemyIndex rnd cosO sinO uuid hst hrnd k
  · intro enemiesL k
    exact (spawnPlayerPosition_ok _ enemiesL rnd hst
      (buildingsFar_createCityLayout su hsu) hrnd k).1

/-- Witness for C9: concrete oracle streams and empty pools. -/
theorem spawn_termination_bounds_spec_witness :
    inBoundsFor GRASS_RADIUS
      (spawnGrass (createCityLayout fun _ => 0).buildings [] [] [] [] none (fun _ => 1 / 2) 0).1.x
      (spawnGrass (createCityLayout fun _ => 0).buildings [] [] [] [] none (fun _ => 1 / 2) 0).1.y ∧
    inBoundsFor PLAYER_RADIUS
      (spawnPlayerPosition (createCityLayout fun _ => 0) [] (fun _ => 1 / 2) 0).1.1
      (spawnPlayerPosition (createCityLayout fun _ => 0) [] (fun _ => 1 / 2) 0).1.2 := by
  have h := spawn_termination_bounds_spec (fun _ => 0) (fun _ => 1 / 2)
    (fun s => by norm_num) (fun n => by norm_num)
  exact ⟨h.1 [] [] [] [] none 0, h.2.2.2 [] 0⟩

theorem mem_of_getElem?_eq_some {α : Type} {l : List α} {n : ℕ} {a : α}
    (h : l[n]? = some a) : a ∈ l := by
  have hn : n < l.length := by
    by_contra hc
    rw [List.getElem?_eq_none (by omega)] at h
    exact Option.noConfusion h
  rw [List.getElem?_eq_getElem hn] at h
  rw [← Option.some_inj.mp h]
  exact List.getElem_mem hn

theorem nodup_append_singleton {l : List String} {a : String} (h : l.Nodup) (ha : a ∉ l) :
    (l ++ [a]).Nodup := by
  simp [List.nodup_append, h, ha]

theorem applyScore_ok (buildings : List Rect) (playersL : List ServerPlayer)
    (userId : String) (score : ℚ) (h : ∀ p ∈ playersL, playerOk buildings p) :
    ∀ p ∈ applyScoreToConnectedPlayers playersL userId score, playerOk buildings p := by
  intro p hp
  obtain ⟨q, hq, hfq⟩ := List.mem_map.mp hp
  by_cases hu : q.userId = userId
  · rw [if_pos hu] at hfq
    rw [← hfq]
    exact h q hq
  · rw [if_neg hu] at hfq
    rw [← hfq]
    exact h q hq

theorem applyColor_ok (buildings : List Rect) (playersL : List ServerPlayer)
    (userId : String) (color : String) (h : ∀ p ∈ playersL, playerOk buildings p) :
    ∀ p ∈ applyColorToConnectedPlayers playersL userId color, playerOk buildings p := by
  intro p hp
  obtain ⟨q, hq, hfq⟩ := List.mem_map.mp hp
  by_cases hu : q.userId = userId
  · rw [if_pos hu] at hfq
    rw [← hfq]
    exact h q hq
  · rw [if_neg hu] at hfq
    rw [← hfq]
    exact h q hq

theorem applyPowerup_pos (player : ServerPlayer) (type : PowerupType) (now : ℚ) :
    (applyPowerup player type now).x = player.x ∧ (applyPowerup player type now).y = player.y ∧
      (applyPowerup player type now).userId = player.userId ∧
      (applyPowerup player type now).connectionId = player.connectionId := by
  cases type <;> exact ⟨rfl, rfl, rfl, rfl⟩

theorem enemyHitLoop_enemies_eq (layout : CityLayout) (rnd : ℕ → ℚ) (ex ey : ℚ) :
    ∀ fuel j ls, (enemyHitLoop layout rnd ex ey j fuel ls).enemies = ls.enemies := by
  intro fuel
  induction fuel with
  | zero => intro j ls; rfl
  | succ n ih =>
    intro j ls
    simp only [enemyHitLoop]
    split
    · rfl
    · split
      · rw [ih]
      · rw [ih]

theorem enemyHitLoop_players_ok (layout : CityLayout) (rnd : ℕ → ℚ) (ex ey : ℚ)
    (hst : streetsWithinMap layout) (hfar : buildingsFar layout.buildings)
    (hrnd : ∀ n, 0 ≤ rnd n ∧ rnd n < 1) :
    ∀ fuel j ls, (∀ p ∈ ls.players, playerOk layout.buildings p) →
      ∀ p ∈ (enemyHitLoop layout rnd ex ey j fuel ls).players, playerOk layout.buildings p := by
  intro fuel
  induction fuel with
  | zero => intro j ls h; exact h
  | succ n ih =>
    intro j ls h
    simp only [enemyHitLoop]
    split
    · exact h
    · split
      · apply ih
        intro p hp
        rcases List.mem_or_eq_of_mem_set hp with hp | hp
        · exact h p hp
        · rw [hp]
          have hok := spawnPlayerPosition_ok layout ls.enemies rnd hst hfar hrnd ls.k
          exact ⟨hok.1, hok.2⟩
      · exact ih _ _ h

theorem enemyHitLoop_hits_nodup (layout : CityLayout) (rnd : ℕ → ℚ) (ex ey : ℚ) :
    ∀ fuel j ls, ls.hits.Nodup → (enemyHitLoop layout rnd ex ey j fuel ls).hits.Nodup := by
  intro fuel
  induction fuel with
  | zero => intro j ls h; exact h
  | succ n ih =>
    intro j ls h
    simp only [enemyHitLoop]
    split
    · exact h
    · rename_i player hplayer
      split
      · apply ih
        by_cases hmem : player.userId ∈ ls.hits
        · simp only [if_pos hmem]
          exact h
        · simp only [if_neg hmem]
          exact nodup_append_singleton h hmem
      · exact ih _ _ h

theorem enemyTickLoop_ok (layout : CityLayout) (rnd : ℕ → ℚ) (sqrtO : ℚ → ℚ)
    (hst : streetsWithinMap layout) (hfar : buildingsFar layout.buildings)
    (hrnd : ∀ n, 0 ≤ rnd n ∧ rnd n < 1) :
    ∀ fuel i ls,
      (∀ p ∈ ls.players, playerOk layout.buildings p) →
      (∀ e ∈ ls.enemies, enemyOk layout.buildings e) →
      (∀ p ∈ (enemyTickLoop layout rnd sqrtO i fuel ls).players, playerOk layout.buildings p) ∧
      (∀ e ∈ (enemyTickLoop layout rnd sqrtO i fuel ls).enemies, enemyOk layout.buildings e) := by
  intro fuel
  induction fuel with
  | zero => intro i ls hp he; exact ⟨hp, he⟩
  | succ n ih =>
    intro i ls hp he
    simp only [enemyTickLoop]
    split
    · exact ⟨hp, he⟩
    · rename_i enemy henemy
      have hemem : enemy ∈ ls.enemies := mem_of_getElem?_eq_some henemy
      have heok := he enemy hemem
      have hmove := movePointToward_ok layout.buildings sqrtO enemy.x enemy.y
        (enemyTargetAndSpeed enemy ls.players).1.1 (enemyTargetAndSpeed enemy ls.players).1.2
        (enemyTargetAndSpeed enemy ls.players).2 heok.1 heok.2
      apply ih
      · apply enemyHitLoop_players_ok layout rnd _ _ hst hfar hrnd
        intro p hp2
        exact hp p hp2
      · rw [enemyHitLoop_enemies_eq]
        intro e he2
        rcases List.mem_or_eq_of_mem_set he2 with h2 | h2
        · exact he e h2
        · rw [h2]
          split
          · exact ⟨hmove.1, hmove.2⟩
          · exact heok

theorem enemyTickLoop_hits_nodup (layout : CityLayout) (rnd : ℕ → ℚ) (sqrtO : ℚ → ℚ) :
    ∀ fuel i ls, ls.hits.Nodup →
      (enemyTickLoop layout rnd sqrtO i fuel ls).hits.Nodup := by
  intro fuel
  induction fuel with
  | zero => intro i ls h; exact h
  | succ n ih =>
    intro i ls h
    simp only [enemyTickLoop]
    split
    · exact h
    · apply ih
      exact enemyHitLoop_hits_nodup layout rnd _ _ _ _ _ h

theorem resetFoldStep_eq (acc : (List (String × ℚ)) × List ServerPlayer × List (String × ℚ))
    (userId : String) :
    resetFoldStep acc userId =
      (mapSet acc.1 userId 0, applyScoreToConnectedPlayers acc.2.1 userId 0,
        acc.2.2 ++ [(userId, 0)]) := rfl

theorem resetFold_preserve (tl : List String) (uid : String) :
    ∀ acc : (List (String × ℚ)) × List ServerPlayer × List (String × ℚ),
      mapGet acc.1 uid = some 0 → (∀ p ∈ acc.2.1, p.userId = uid → p.score = 0) →
      mapGet (tl.foldl resetFoldStep acc).1 uid = some 0 ∧
        ∀ p ∈ (tl.foldl resetFoldStep acc).2.1, p.userId = uid → p.score = 0 := by
  induction tl with
  | nil => intro acc h1 h2; exact ⟨h1, h2⟩
  | cons hd tl ih =>
    intro acc h1 h2
    rw [List.foldl_cons]
    apply ih
    · rw [resetFoldStep_eq]
      by_cases hu : uid = hd
      · subst hu
        exact mapGet_mapSet_self acc.1 uid 0
      · rw [mapGet_mapSet_other acc.1 hd uid 0 hu]
        exact h1
    · rw [resetFoldStep_eq]
      intro p hp hpu
      obtain ⟨q, hq, hfq⟩ := List.mem_map.mp hp
      by_cases hqu : q.userId = hd
      · rw [if_pos hqu] at hfq
        rw [← hfq]
      · rw [if_neg hqu] at hfq
        rw [← hfq]
        rw [← hfq] at hpu
        exact h2 q hq hpu

theorem resetFold_hits (hits : List String) :
    ∀ acc : (List (String × ℚ)) × List ServerPlayer × List (String × ℚ),
      ∀ uid ∈ hits,
        mapGet (hits.foldl resetFoldStep acc).1 uid = some 0 ∧
        ∀ p ∈ (hits.foldl resetFoldStep acc).2.1, p.userId = uid → p.score = 0 := by
  induction hits with
  | nil => intro acc uid h; exact absurd h (List.not_mem_nil uid)
  | cons hd tl ih =>
    intro acc uid hmem
    rw [List.foldl_cons]
    rcases List.mem_cons.mp hmem with h | h
    · subst h
      apply resetFold_preserve
      · rw [resetFoldStep_eq]
        exact mapGet_mapSet_self acc.1 uid 0
      · rw [resetFoldStep_eq]
        intro p hp hpu
        obtain ⟨q, hq, hfq⟩ := List.mem_map.mp hp
        by_cases hqu : q.userId = uid
        · rw [if_pos hqu] at hfq
          rw [← hfq]
        · rw [if_neg hqu] at hfq
          rw [← hfq] at hpu
          exact absurd hpu hqu
    · exact ih _ uid h

theorem resetFold_players_ok (buildings : List Rect) (hits : List String) :
    ∀ acc, (∀ p ∈ acc.2.1, playerOk buildings p) →
      ∀ p ∈ (hits.foldl resetFoldStep acc).2.1, playerOk buildings p := by
  induction hits with
  | nil => intro acc h; exact h
  | cons hd tl ih =>
    intro acc h
    rw [List.foldl_cons]
    apply ih
    rw [resetFoldStep_eq]
    exact applyScore_ok buildings acc.2.1 hd 0 h

theorem resetFold_trace (hits : List String) :
    ∀ acc, (hits.foldl resetFoldStep acc).2.2 =
      acc.2.2 ++ hits.map (fun u => (u, (0 : ℚ))) := by
  induction hits with
  | nil => intro acc; simp
  | cons hd tl ih =>
    intro acc
    rw [List.foldl_cons, ih]
    rw [resetFoldStep_eq]
    simp

theorem updateEnemies_ok (layout : CityLayout) (rnd : ℕ → ℚ) (sqrtO : ℚ → ℚ)
    (hst : streetsWithinMap layout) (hfar : buildingsFar layout.buildings)
    (hrnd : ∀ n, 0 ≤ rnd n ∧ rnd n < 1) (st : GameState) (k : ℕ)
    (hp : ∀ p ∈ st.players, playerOk layout.buildings p)
    (he : ∀ e ∈ st.enemies, enemyOk layout.buildings e) :
    (∀ p ∈ (updateEnemies layout rnd sqrtO st k).1.state.players, playerOk layout.buildings p) ∧
    (∀ e ∈ (updateEnemies layout rnd sqrtO st k).1.state.enemies, enemyOk layout.buildings e) := by
  simp only [updateEnemies]
  split
  · exact ⟨hp, he⟩
  · have hloop := enemyTickLoop_ok layout rnd sqrtO hst hfar hrnd st.enemies.length 0
      { players := st.players, enemies := st.enemies, k := k, hits := [],
        respawned := [], changed := false } hp he
    constructor
    · exact resetFold_players_ok layout.buildings _ _ hloop.1
    · exact hloop.2

theorem updateEnemies_hit_scores (layout : CityLayout) (rnd : ℕ → ℚ) (sqrtO : ℚ → ℚ)
    (st : GameState) (k : ℕ) :
    ∀ uid ∈ (updateEnemies layout rnd sqrtO st k).1.hits,
      mapGet (updateEnemies layout rnd sqrtO st k).1.state.userScores uid = some 0 ∧
      ∀ p ∈ (updateEnemies layout rnd sqrtO st k).1.state.players,
        p.userId = uid → p.score = 0 := by
  simp only [updateEnemies]
  split
  · intro uid h
    exact absurd h (List.not_mem_nil uid)
  · intro uid h
    exact resetFold_hits _ _ uid h

theorem updateEnemies_reset_once (layout : CityLayout) (rnd : ℕ → ℚ) (sqrtO : ℚ → ℚ)
    (st : GameState) (k : ℕ) :
    (updateEnemies layout rnd sqrtO st k).1.hits.Nodup ∧
    (updateEnemies layout rnd sqrtO st k).1.persists =
      (updateEnemies layout rnd sqrtO st k).1.hits.map (fun u => (u, (0 : ℚ))) := by
  simp only [updateEnemies]
  split
  · exact ⟨List.nodup_nil, rfl⟩
  · constructor
    · exact enemyTickLoop_hits_nodup layout rnd sqrtO st.enemies.length 0 _ List.nodup_nil
    · rw [resetFold_trace]
      simp

theorem powerupLoop_ok (layout : CityLayout) (enemiesL : List EnemySpot) (rnd : ℕ → ℚ)
    (uuid : ℕ → String) (now : ℚ) (pIdx : ℕ) :
    ∀ fuel i ms,
      (∀ p ∈ ms.players, playerOk layout.buildings p) →
      playerOk layout.buildings ms.player →
      (∀ p ∈ (powerupLoop layout enemiesL rnd uuid now pIdx i fuel ms).players,
        playerOk layout.buildings p) ∧
      playerOk layout.buildings (powerupLoop layout enemiesL rnd uuid now pIdx i fuel ms).player := by
  intro fuel
  induction fuel with
  | zero => intro i ms h hpl; exact ⟨h, hpl⟩
  | succ n ih =>
    intro i ms h hpl
    simp only [powerupLoop]
    split
    · exact ⟨h, hpl⟩
    · rename_i powerup hpu
      split
      · apply ih
        · intro p hp2
          rcases List.mem_or_eq_of_mem_set hp2 with h2 | h2
          · exact h p h2
          · rw [h2]
            have hxy := applyPowerup_pos ms.player powerup.type now
            exact ⟨by rw [hxy.1, hxy.2.1]; exact hpl.1, by rw [hxy.1, hxy.2.1]; exact hpl.2⟩
        · have hxy := applyPowerup_pos ms.player powerup.type now
          exact ⟨by rw [hxy.1, hxy.2.1]; exact hpl.1, by rw [hxy.1, hxy.2.1]; exact hpl.2⟩
      · exact ih _ _ h hpl

theorem ite_moveLoop_players (c : Prop) [Decidable c] (a b : MoveLoopState)
    (x : List ServerPlayer) (ha : a.players = x) (hb : b.players = x) :
    (if c then a else b).players = x := by
  split <;> assumption

theorem ite_moveLoop_player (c : Prop) [Decidable c] (a b : MoveLoopState)
    (x : ServerPlayer) (ha : a.player = x) (hb : b.player = x) :
    (if c then a else b).player = x := by
  split <;> assumption

theorem grassLoop_players_eq (layout : CityLayout) (enemiesL : List EnemySpot)
    (rnd : ℕ → ℚ) (sqrtO : ℚ → ℚ) (isMagnetActive : Bool)
    (touchingDistance magnetDistanceSquared : ℚ) :
    ∀ fuel i ms,
      (grassLoop layout enemiesL rnd sqrtO isMagnetActive touchingDistance
        magnetDistanceSquared i fuel ms).players = ms.players ∧
      (grassLoop layout enemiesL rnd sqrtO isMagnetActive touchingDistance
        magnetDistanceSquared i fuel ms).player = ms.player := by
  intro fuel
  induction fuel with
  | zero => intro i ms; exact ⟨rfl, rfl⟩
  | succ n ih =>
    intro i ms
    simp only [grassLoop]
    split
    · exact ⟨rfl, rfl⟩
    · split
      · exact ih _ _
      · constructor
        · rw [(ih _ _).1]
          exact ite_moveLoop_players _ _ _ _ rfl rfl
        · rw [(ih _ _).2]
          exact ite_moveLoop_player _ _ _ _ rfl rfl

theorem applyGrassScore_players_ok (buildings : List Rect) (userScores : List (String × ℚ))
    (playersL : List ServerPlayer) (uid : String) (fb : ℚ) (pts : ℕ)
    (h : ∀ p ∈ playersL, playerOk buildings p) :
    ∀ p ∈ (applyGrassScore userScores playersL uid fb pts).2.1, playerOk buildings p := by
  unfold applyGrassScore
  split
  · exact applyScore_ok buildings playersL uid _ h
  · exact h

theorem movedServerPlayer_ok (layout : CityLayout) (sqrtHalf now : ℚ)
    (player : ServerPlayer) (dx dy : ℚ) (hplayer : playerOk layout.buildings player) :
    playerOk layout.buildings (movedServerPlayer layout sqrtHalf now player dx dy) := by
  have hr : PLAYER_RADIUS ≤ MAP_WIDTH - PLAYER_RADIUS := by norm_num [PLAYER_RADIUS, MAP_WIDTH]
  have hr2 : PLAYER_RADIUS ≤ MAP_HEIGHT - PLAYER_RADIUS := by norm_num [PLAYER_RADIUS, MAP_HEIGHT]
  have h := resolveBlockedMovement_ok layout.buildings PLAYER_RADIUS player.x player.y
    (player.x + dx * getPlayerMoveSpeed player now * (if dx ≠ 0 ∧ dy ≠ 0 then sqrtHalf else 1))
    (player.y + dy * getPlayerMoveSpeed player now * (if dx ≠ 0 ∧ dy ≠ 0 then sqrtHalf else 1))
    hr hr2 hplayer.1 hplayer.2
  exact ⟨h.1, h.2⟩

theorem moveMs0_ok (layout : CityLayout) (sqrtHalf now : ℚ) (pIdx : ℕ)
    (player : ServerPlayer) (dx dy : ℚ) (st : GameState) (k : ℕ)
    (hp : ∀ p ∈ st.players, playerOk layout.buildings p)
    (hplayer : playerOk layout.buildings player) :
    (∀ p ∈ (moveMs0 layout sqrtHalf now pIdx player dx dy st k).players,
      playerOk layout.buildings p) ∧
    playerOk layout.buildings (moveMs0 layout sqrtHalf now pIdx player dx dy st k).player := by
  constructor
  · intro p hp2
    rcases List.mem_or_eq_of_mem_set hp2 with h2 | h2
    · exact hp p h2
    · rw [h2]
      exact movedServerPlayer_ok layout sqrtHalf now player dx dy hplayer
  · exact movedServerPlayer_ok layout sqrtHalf now player dx dy hplayer

theorem moveMs1_ok (layout : CityLayout) (rnd : ℕ → ℚ) (sqrtHalf : ℚ) (uuid : ℕ → String)
    (now : ℚ) (pIdx : ℕ) (player : ServerPlayer) (dx dy : ℚ) (st : GameState) (k : ℕ)
    (hp : ∀ p ∈ st.players, playerOk layout.buildings p)
    (hplayer : playerOk layout.buildings player) :
    (∀ p ∈ (moveMs1 layout rnd sqrtHalf uuid now pIdx player dx dy st k).players,
      playerOk layout.buildings p) ∧
    playerOk layout.buildings (moveMs1 layout rnd sqrtHalf uuid now pIdx player dx dy st k).player := by
  have h0 := moveMs0_ok layout sqrtHalf now pIdx player dx dy st k hp hplayer
  exact powerupLoop_ok layout st.enemies rnd uuid now pIdx _ 0 _ h0.1 h0.2

theorem moveMs2_players (layout : CityLayout) (rnd : ℕ → ℚ) (sqrtO : ℚ → ℚ) (sqrtHalf : ℚ)
    (uuid : ℕ → String) (now : ℚ) (pIdx : ℕ) (player : ServerPlayer) (dx dy : ℚ)
    (st : GameState) (k : ℕ) :
    (moveMs2 layout rnd sqrtO sqrtHalf uuid now pIdx player dx dy st k).players =
      (moveMs1 layout rnd sqrtHalf uuid now pIdx player dx dy st k).players :=
  (grassLoop_players_eq _ _ _ _ _ _ _ _ _ _).1

theorem moveStMid_ok (layout : CityLayout) (rnd : ℕ → ℚ) (sqrtO : ℚ → ℚ) (sqrtHalf : ℚ)
    (uuid : ℕ → String) (now : ℚ) (pIdx : ℕ) (player : ServerPlayer) (dx dy : ℚ)
    (st : GameState) (k : ℕ)
    (hp : ∀ p ∈ st.players, playerOk layout.buildings p)
    (hplayer : playerOk layout.buildings player) :
    (∀ p ∈ (moveStMid layout rnd sqrtO sqrtHalf uuid now pIdx player dx dy st k).players,
      playerOk layout.buildings p) ∧
    (moveStMid layout rnd sqrtO sqrtHalf uuid now pIdx player dx dy st k).enemies =
      st.enemies := by
  constructor
  · apply applyGrassScore_players_ok
    rw [moveMs2_players]
    exact (moveMs1_ok layout rnd sqrtHalf uuid now pIdx player dx dy st k hp hplayer).1
  · rfl

theorem handleMove_ok (layout : CityLayout) (rnd : ℕ → ℚ) (sqrtO : ℚ → ℚ) (sqrtHalf : ℚ)
    (uuid : ℕ → String) (now : ℚ) (pIdx : ℕ) (player : ServerPlayer) (dx dy : ℚ)
    (st : GameState) (k : ℕ)
    (hst : streetsWithinMap layout) (hfar : buildingsFar layout.buildings)
    (hrnd : ∀ n, 0 ≤ rnd n ∧ rnd n < 1)
    (hp : ∀ p ∈ st.players, playerOk layout.buildings p)
    (he : ∀ e ∈ st.enemies, enemyOk layout.buildings e)
    (hplayer : playerOk layout.buildings player) :
    (∀ p ∈ (handleMove layout rnd sqrtO sqrtHalf uuid now pIdx player dx dy st k).1.state.players,
      playerOk layout.buildings p) ∧
    (∀ e ∈ (handleMove layout rnd sqrtO sqrtHalf uuid now pIdx player dx dy st k).1.state.enemies,
      enemyOk layout.buildings e) := by
  have hmid := moveStMid_ok layout rnd sqrtO sqrtHalf uuid now pIdx player dx dy st k hp hplayer
  have hemid : ∀ e ∈ (moveStMid layout rnd sqrtO sqrtHalf uuid now pIdx player dx dy st k).enemies,
      enemyOk layout.buildings e := by
    rw [hmid.2]
    exact he
  exact updateEnemies_ok layout rnd sqrtO hst hfar hrnd _ _ hmid.1 hemid

theorem handleMessage_ok (layout : CityLayout) (rnd : ℕ → ℚ) (sqrtO : ℚ → ℚ) (sqrtHalf : ℚ)
    (uuid : ℕ → String) (now : ℚ) (peerId : String) (msg : ClientMessage)
    (st : GameState) (k : ℕ)
    (hst : streetsWithinMap layout) (hfar : buildingsFar layout.buildings)
    (hrnd : ∀ n, 0 ≤ rnd n ∧ rnd n < 1)
    (hp : ∀ p ∈ st.players, playerOk layout.buildings p)
    (he : ∀ e ∈ st.enemies, enemyOk layout.buildings e) :
    (∀ p ∈ (handleMessage layout rnd sqrtO sqrtHalf uuid now peerId msg st k).1.state.players,
      playerOk layout.buildings p) ∧
    (∀ e ∈ (handleMessage layout rnd sqrtO sqrtHalf uuid now peerId msg st k).1.state.enemies,
      enemyOk layout.buildings e) := by
  unfold handleMessage
  cases hfind : findPlayer st peerId with
  | none => exact ⟨hp, he⟩
  | some player =>
    have hpmem : player ∈ st.players := List.mem_of_find?_eq_some hfind
    have hplayer := hp player hpmem
    cases msg with
    | parseFailure => exact ⟨hp, he⟩
    | otherType => exact ⟨hp, he⟩
    | setColor c =>
      cases hc : sanitizeColorValue c with
      | none =>
        simp only [hc]
        exact ⟨hp, he⟩
      | some col =>
        simp only [hc]
        exact ⟨applyColor_ok layout.buildings st.players player.userId col hp, he⟩
    | move vx vy =>
      dsimp only
      by_cases hz : moveComponent vx = 0 ∧ moveComponent vy = 0
      · rw [if_pos hz]
        exact ⟨hp, he⟩
      · rw [if_neg hz]
        exact handleMove_ok layout rnd sqrtO sqrtHalf uuid now _ player
          (moveComponent vx) (moveComponent vy) st k hst hfar hrnd hp he hplayer

theorem runOps_ok (layout : CityLayout) (rnd : ℕ → ℚ) (sqrtO : ℚ → ℚ) (sqrtHalf : ℚ)
    (uuid : ℕ → String)
    (hst : streetsWithinMap layout) (hfar : buildingsFar layout.buildings)
    (hrnd : ∀ n, 0 ≤ rnd n ∧ rnd n < 1) :
    ∀ (ops : List Op) (s : GameState × ℕ),
      (∀ p ∈ s.1.players, playerOk layout.buildings p) →
      (∀ e ∈ s.1.enemies, enemyOk layout.buildings e) →
      (∀ p ∈ (runOps layout rnd sqrtO sqrtHalf uuid ops s).1.players, playerOk layout.buildings p) ∧
      (∀ e ∈ (runOps layout rnd sqrtO sqrtHalf uuid ops s).1.enemies, enemyOk layout.buildings e) := by
  intro ops
  induction ops with
  | nil => intro s hp he; exact ⟨hp, he⟩
  | cons op rest ih =>
    intro s hp he
    cases op with
    | move peerId dx dy now =>
      simp only [runOps]
      have h := handleMessage_ok layout rnd sqrtO sqrtHalf uuid now peerId
        (ClientMessage.move dx dy) s.1 s.2 hst hfar hrnd hp he
      exact ih _ h.1 h.2
    | enemyTick =>
      simp only [runOps]
      have h := updateEnemies_ok layout rnd sqrtO hst hfar hrnd s.1 s.2 hp he
      exact ih _ h.1 h.2

/-- C1: for every seeded layout and every randomness/`sqrt` oracle, if every
player and enemy center starts within `[radius, bound - radius]` on both
axes and outside every building (expanded by its radius), then after any
sequence of move intents and enemy ticks every player and enemy center is
still within its band and outside every building: `resolveBlockedMovement`
clamps targets to bounds first and advances an axis only when the
destination circle intersects no building, and respawns use
`spawnPlayerPosition`. -/
theorem movement_invariant_spec (su : ℤ → ℚ) (rnd : ℕ → ℚ) (sqrtO : ℚ → ℚ)
    (sqrtHalf : ℚ) (uuid : ℕ → String) (ops : List Op) (st : GameState) (k : ℕ)
    (hsu : ∀ s, 0 ≤ su s ∧ su s < 1) (hrnd : ∀ n, 0 ≤ rnd n ∧ rnd n < 1)
    (hinv : entitiesOk (createCityLayout su).buildings st) :
    entitiesOk (createCityLayout su).buildings
      (runOps (createCityLayout su) rnd sqrtO sqrtHalf uuid ops (st, k)).1 := by
  have h := runOps_ok (createCityLayout su) rnd sqrtO sqrtHalf uuid
    (streetsWithinMap_createCityLayout su) (buildingsFar_createCityLayout su hsu) hrnd ops
    (st, k) hinv.1 hinv.2
  exact ⟨h.1, h.2⟩

/-- C2: in every `updateEnemies` invocation, every user recorded in
`hitUserIds` (exactly the users of players found within
`PLAYER_RADIUS + ENEMY_RADIUS` of an enemy right after that enemy's step —
see `enemyHitLoop`) ends the invocation with score exactly `0` in the
user-score map and on every live connection of that user, and every
respawned connection ends the invocation at a position within bounds whose
circle intersects no building. -/
theorem enemyHit_reset_spec (su : ℤ → ℚ) (rnd : ℕ → ℚ) (sqrtO : ℚ → ℚ)
    (st : GameState) (k : ℕ)
    (hsu : ∀ s, 0 ≤ su s ∧ su s < 1) (hrnd : ∀ n, 0 ≤ rnd n ∧ rnd n < 1)
    (hinv : entitiesOk (createCityLayout su).buildings st) :
    (∀ uid ∈ (updateEnemies (createCityLayout su) rnd sqrtO st k).1.hits,
      mapGet (updateEnemies (createCityLayout su) rnd sqrtO st k).1.state.userScores uid =
          some 0 ∧
      ∀ p ∈ (updateEnemies (createCityLayout su) rnd sqrtO st k).1.state.players,
        p.userId = uid → p.score = 0) ∧
    (∀ p ∈ (updateEnemies (createCityLayout su) rnd sqrtO st k).1.state.players,
      p.connectionId ∈ (updateEnemies (createCityLayout su) rnd sqrtO st k).1.respawned →
      inBoundsFor PLAYER_RADIUS p.x p.y ∧
        isCircleBlockedByBuildings (createCityLayout su).buildings p.x p.y PLAYER_RADIUS =
          false) := by
  constructor
  · exact updateEnemies_hit_scores (createCityLayout su) rnd sqrtO st k
  · intro p hp hre
    exact (updateEnemies_ok (createCityLayout su) rnd sqrtO
      (streetsWithinMap_createCityLayout su) (buildingsFar_createCityLayout su hsu) hrnd
      st k hinv.1 hinv.2).1 p hp

/-- C8: within a single `updateEnemies` invocation the `hitUserIds` trace
is duplicate-free, the absolute-zero persistence writes are exactly one per
recorded user, and hence no user is reset (or persisted) more than once
even when several enemies hit the same user or several of the user's
connections are hit. -/
theorem hit_dedup_spec (layout : CityLayout) (rnd : ℕ → ℚ) (sqrtO : ℚ → ℚ)
    (st : GameState) (k : ℕ) :
    (updateEnemies layout rnd sqrtO st k).1.hits.Nodup ∧
    (updateEnemies layout rnd sqrtO st k).1.persists =
      (updateEnemies layout rnd sqrtO st k).1.hits.map (fun u => (u, (0 : ℚ))) ∧
    ∀ uid, ((updateEnemies layout rnd sqrtO st k).1.persists.map Prod.fst).count uid ≤ 1 := by
  obtain ⟨h1, h2⟩ := updateEnemies_reset_once layout rnd sqrtO st k
  refine ⟨h1, h2, ?_⟩
  intro uid
  rw [h2]
  have he : (((updateEnemies layout rnd sqrtO st k).1.hits.map fun u => (u, (0 : ℚ))).map
      Prod.fst) = (updateEnemies layout rnd sqrtO st k).1.hits := by
    simp [Function.comp_def]
  rw [he]
  exact List.nodup_iff_count_le_one.mp h1 uid

/-- An enemy sitting in the street corner region of every seeded layout. -/
def c2Enemy : EnemySpot :=
  { id := "e1", x := 100, y := 100, homeX := 100, homeY := 100, territoryRadius := 900 }

/-- A concrete legal state for the C1/C2 witnesses: one registered player
and one enemy, both in bounds and outside every building of the zero-seed
layout. -/
def c2State : GameState :=
  { players := [samplePlayer], userScores := [("u1", 0)], userColors := [],
    pendingJoins := [], grasses := [], powerups := [], enemies := [c2Enemy] }

theorem c2State_ok : entitiesOk (createCityLayout (fun _ => 0)).buildings c2State := by
  have hfar : buildingsFar (createCityLayout (fun _ => 0)).buildings :=
    buildingsFar_createCityLayout (fun _ => 0) (fun _ => by norm_num)
  constructor
  · intro p hp
    have hp' : p = samplePlayer := List.mem_singleton.mp hp
    subst hp'
    refine ⟨?_, ?_⟩
    · norm_num [inBoundsFor, samplePlayer, MAP_WIDTH, MAP_HEIGHT, PLAYER_RADIUS]
    · exact far_corner_not_blocked _ hfar _ _ _
        (by norm_num [samplePlayer]) (by norm_num [PLAYER_RADIUS])
        (by norm_num [samplePlayer, PLAYER_RADIUS])
  · intro e he
    have he' : e = c2Enemy := List.mem_singleton.mp he
    subst he'
    refine ⟨?_, ?_⟩
    · norm_num [inBoundsFor, c2Enemy, MAP_WIDTH, MAP_HEIGHT, ENEMY_RADIUS]
    · exact far_corner_not_blocked _ hfar _ _ _
        (by norm_num [c2Enemy]) (by norm_num [ENEMY_RADIUS])
        (by norm_num [c2Enemy, ENEMY_RADIUS])

/-- Witness for C1 at the zero-seed layout, zero randomness, a concrete
move intent followed by an enemy tick, starting from a concrete legal
state. -/
theorem movement_invariant_spec_witness :
    entitiesOk (createCityLayout (fun _ => 0)).buildings
      (runOps (createCityLayout (fun _ => 0)) (fun _ => 0) (fun _ => 0) 0 (fun _ => "")
        [Op.move "c1" (JsNum.num 5) (JsNum.num 0) 0, Op.enemyTick] (c2State, 0)).1 :=
  movement_invariant_spec (fun _ => 0) (fun _ => 0) (fun _ => 0) 0 (fun _ => "")
    [Op.move "c1" (JsNum.num 5) (JsNum.num 0) 0, Op.enemyTick] c2State 0
    (fun _ => by norm_num) (fun _ => by norm_num) c2State_ok

/-- Witness for C2 at the zero-seed layout and zero randomness, from a
concrete legal state with one player and one enemy. -/
theorem enemyHit_reset_spec_witness :
    (∀ uid ∈ (updateEnemies (createCityLayout (fun _ => 0)) (fun _ => 0) (fun _ => 0)
        c2State 0).1.hits,
      mapGet (updateEnemies (createCityLayout (fun _ => 0)) (fun _ => 0) (fun _ => 0)
            c2State 0).1.state.userScores uid = some 0 ∧
      ∀ p ∈ (updateEnemies (createCityLayout (fun _ => 0)) (fun _ => 0) (fun _ => 0)
          c2State 0).1.state.players,
        p.userId = uid → p.score = 0) ∧
    (∀ p ∈ (updateEnemies (createCityLayout (fun _ => 0)) (fun _ => 0) (fun _ => 0)
        c2State 0).1.state.players,
      p.connectionId ∈ (updateEnemies (createCityLayout (fun _ => 0)) (fun _ => 0)
          (fun _ => 0) c2State 0).1.respawned →
      inBoundsFor PLAYER_RADIUS p.x p.y ∧
        isCircleBlockedByBuildings (createCityLayout (fun _ => 0)).buildings p.x p.y
            PLAYER_RADIUS = false) :=
  enemyHit_reset_spec (fun _ => 0) (fun _ => 0) (fun _ => 0) c2State 0
    (fun _ => by norm_num) (fun _ => by norm_num) c2State_ok
